import Mathlib

/-!
Verification development for the CLI language core of the CorralNAS/FreeNAS
command-line interface: the lexer and grammar of `freenas/cli/parser.py` and
the tree-walking evaluator of `freenas/cli/repl.py`.  The administrative
namespace/command tree is an external collaborator (spec section 6); it is
represented here by a small data type whose hooks and command bodies record
the invocations the evaluator makes, so that theorems can observe how and
when commands are invoked.  Machine integers of the source are Python
bignums, so they are modelled as `Int`/`Nat` directly.
-/

namespace FreenasCli

/-- Result values returned by mocked external command implementations
(`Command.run` bodies live outside the core, spec section 6). -/
inductive RVal where
  | none
  | int (n : Int)
  | str (s : String)
  | bool (b : Bool)
  | list (xs : List RVal)

/-- The builtin pipe-stage commands registered in `MainLoop.pipe_commands`
(repl.py lines 644-651).  Their classes live in `freenas/cli/commands.py`. -/
inductive PipeSpec where
  | search
  | exclude
  | sort
  | limit
  | select
  | less
deriving DecidableEq, Repr

/-- The three command base classes of `freenas/cli/namespace.py`:
`Command`, `FilteringCommand` and `PipeCommand` (namespace.py lines 113-151). -/
inductive CmdKind where
  | plain
  | filtering
  | pipe (ps : PipeSpec)
deriving DecidableEq, Repr

/-- A command object of the external administrative tree: its registered
name, which base class it instantiates, and the (mocked) value its `run`
implementation returns. -/
structure CmdSpec where
  name : String
  kind : CmdKind
  ret : RVal := RVal.none

/-- A `Namespace` of the external administrative tree (namespace.py lines
70-110): `get_name`, `namespaces()` (ordered children) and `commands()`. -/
inductive NsTree where
  | mk (name : String) (children : List NsTree) (cmds : List (String × CmdSpec))

/-- Mirrors `Namespace.get_name` (namespace.py line 82). -/
def NsTree.get_name : NsTree → String
  | .mk n _ _ => n

/-- Mirrors `Namespace.namespaces` (namespace.py line 104). -/
def NsTree.namespaces : NsTree → List NsTree
  | .mk _ c _ => c

/-- Mirrors `Namespace.commands` (namespace.py line 101). -/
def NsTree.commands : NsTree → List (String × CmdSpec)
  | .mk _ _ cs => cs

/-- The AST node kinds built by the grammar actions of parser.py (lines
60-81).  `word` keeps the raw strings `'..'` and `'/'` that the productions
`p_command_item_2` and `p_unary_parameter_2` place directly into command
argument lists, and `astList` is a plain Python list of nodes as built by
`p_set_parameter`.  Source positions (file/line/column) are diagnostic
metadata and are not carried in the embedding. -/
inductive Ast where
  | comment (text : String)
  | symbol (name : String)
  | symbolNum (n : Int)
  | symbolBool (b : Bool)
  | symbolNone
  | litInt (n : Int)
  | litStr (s : String)
  | litBool (b : Bool)
  | litNone
  | litList (elems : List Ast)
  | litDict (pairs : List (Ast × Ast))
  | unaryExpr (expr : Ast) (op : String)
  | binaryExpr (left : Ast) (op : String) (right : Ast)
  | binaryParameter (left : String) (op : String) (right : Ast)
  | exprExpansion (expr : Ast)
  | pipeExpr (left : Ast) (right : Ast)
  | functionCall (name : String) (args : List Ast)
  | commandCall (args : List Ast)
  | subscript (expr : Ast) (index : Ast)
  | ifStatement (expr : Ast) (body : List Ast) (elseBody : List Ast)
  | assignName (name : String) (expr : Ast)
  | assignSubscript (target : Ast) (expr : Ast)
  | forStatement (var : String) (expr : Ast) (body : List Ast)
  | forStatement2 (kvar : String) (vvar : String) (expr : Ast) (body : List Ast)
  | whileStatement (expr : Ast) (body : List Ast)
  | undefStatement (name : String)
  | returnStatement (expr : Ast)
  | breakStatement
  | functionDefinition (name : String) (args : List String) (body : List Ast)
  | anonymousFunction (args : List String) (body : List Ast)
  | redirection (body : Ast) (path : String)
  | word (s : String)
  | astList (elems : List Ast)

/-- Mirrors `FlowControlInstructionType` (repl.py lines 154-156). -/
inductive FlowControlInstructionType where
  | RETURN
  | BREAK
deriving DecidableEq, Repr

mutual

/-- Runtime values of the interpreter.  Besides Python primitives these
include the objects the evaluator passes around: `tuple3` is the 3-tuple a
`BinaryParameter` evaluates to (repl.py line 1007), `fciV` is a
`FlowControlInstruction` object returned as a value (repl.py lines 910-917),
`dryRes` is the 5-tuple returned by a dry-run command resolution (repl.py
line 962), `astObj` is an unevaluated AST node held as a value (dict-literal
keys are unevaluated AST nodes, see `p_dict_pair_1` and the dict branch of
`MainLoop.eval`), and `configVar` is the `VariableStore.Variable` object the
`Symbol` branch can return (repl.py line 833). -/
inductive Value where
  | none
  | vint (n : Int)
  | vstr (s : String)
  | vbool (b : Bool)
  | vlist (xs : List Value)
  | vdict (pairs : List (DictKey × Value))
  | tuple3 (l : String) (op : String) (r : Value)
  | fciV (t : FlowControlInstructionType) (payload : Value)
  | func (name : String) (params : List String) (body : List Ast) (envId : Nat)
  | builtinFunc (name : String)
  | nsVal (t : NsTree)
  | cmdVal (c : CmdSpec)
  | configVar (name : String)
  | astObj (a : Ast)
  | dryRes (c : CmdSpec) (cwd : NsTree) (args : List Value)
      (kwargs : List (String × Value)) (opargs : List (String × String × Value))

/-- A Python dict key: dict literals carry unevaluated AST nodes as keys
(`p_dict_literal_2` builds `dict` over `(expr, expr)` pairs and the eval dict
branch evaluates only the values), while subscript assignment inserts
evaluated values as keys. -/
inductive DictKey where
  | ast (a : Ast)
  | val (v : Value)

end

mutual

/-- Injection of mocked command results into runtime values. -/
def RVal.toValue : RVal → Value
  | .none => Value.none
  | .int n => Value.vint n
  | .str s => Value.vstr s
  | .bool b => Value.vbool b
  | .list xs => Value.vlist (RVal.toValueL xs)

/-- Elementwise injection for list results. -/
def RVal.toValueL : List RVal → List Value
  | [] => []
  | x :: xs => x.toValue :: RVal.toValueL xs

end

/-- An entry of an `Environment` dict (repl.py lines 617-628): values are
either wrapped in an `Environment.Variable` cell or stored raw (direct
`dict.__setitem__`, as done for loop variables and function definitions). -/
inductive Cell where
  | variable (v : Value)
  | raw (v : Value)

/-- One `Environment` object: its own dict plus the `outer` link
(repl.py lines 622-628). -/
structure EnvObj where
  vars : List (String × Cell)
  outer : Option Nat

/-- Mirrors `CallStackEntry` (repl.py lines 558-573); the source-position
fields are diagnostic metadata and are elided. -/
structure CallStackEntry where
  func : String
  args : List Value

/-- The `{"filter": [], "params": {}}` accumulator built by the
`FilteringCommand` pushdown pass (repl.py line 1020). -/
structure Filt where
  filter : List (String × String × Value)
  params : List (String × Value)

/-- Observable invocations of the external collaborators: namespace
`on_enter` hooks and the three kinds of `Command.run` calls.  The mocked
externals record an event and return their fixed result. -/
inductive Ev where
  | nsEnter (name : String)
  | cmdRun (name : String) (args : List Value) (kwargs : List (String × Value))
      (opargs : List (String × String × Value))
  | filtRun (name : String) (args : List Value) (kwargs : List (String × Value))
      (opargs : List (String × String × Value)) (filtering : Option Filt)
  | pipeRun (name : String) (args : List Value) (kwargs : List (String × Value))
      (opargs : List (String × String × Value)) (input : Value)
  | builtinCall (name : String) (args : List Value)
  | shellRun (cmd : String)

/-- Errors of the evaluator, mirroring the exception taxonomy the source
raises and catches: `SyntaxError`, `KeyError`, `TypeError`/`IndexError`/
`AttributeError`, the `FlowControlInstruction` control-flow exception
(repl.py line 552), `SystemExit`, and `fuel`, the model's analogue of hitting
the host recursion limit. -/
inductive Err where
  | syntaxErr (msg : String)
  | keyErr (k : String)
  | typeErr (msg : String)
  | indexErr (msg : String)
  | attrErr (msg : String)
  | flow (t : FlowControlInstructionType) (payload : Value)
  | systemExit
  | fuel

/-- Whether an error is the process-termination request, which is the only
exception `MainLoop.process` lets propagate (repl.py lines 1072-1073,
1099-1100). -/
def Err.isSystemExit : Err → Bool
  | .systemExit => true
  | _ => false

/-- Lines printed by `output_msg` and values handed to `format_output`
by `MainLoop.process`. -/
inductive OutEvent where
  | msg (s : String)
  | formatted (v : Value)

/-- The mutable session state threaded through evaluation: the environment
heap (Python object references modelled as indices; index 0 is
`Context.global_env`), the `MainLoop` path fields, the call stack and
config-variable store of `Context`, the heap of active pushdown filter
dicts, `Context.pipe_cwd`, the builtin-function name table of
`Context.builtin_functions`, and the log of external invocations. -/
structure St where
  envs : Nat → EnvObj
  nextEnv : Nat
  path : List NsTree
  prevPath : List NsTree
  rootPath : List NsTree
  startFromRoot : Bool
  callStack : List CallStackEntry
  configVars : List (String × Value)
  builtinFunctions : List String
  filts : List Filt
  pipeCwd : Option NsTree
  log : List Ev

/-- Association-list lookup (first binding wins, as in a Python dict with
unique keys). -/
def alookup {α : Type} : List (String × α) → String → Option α
  | [], _ => Option.none
  | (k', v) :: rest, k => if k' = k then some v else alookup rest k

/-- Python-dict update semantics: an existing key keeps its position and
gets the new value, a fresh key is appended. -/
def aset {α : Type} : List (String × α) → String → α → List (String × α)
  | [], k, v => [(k, v)]
  | (k', v') :: rest, k, v =>
      if k' = k then (k, v) :: rest else (k', v') :: aset rest k v

/-- Python `del d[k]` on an association list (keys are unique). -/
def adel {α : Type} : List (String × α) → String → List (String × α)
  | [], _ => []
  | (k', v') :: rest, k => if k' = k then rest else (k', v') :: adel rest k

/-- Python truthiness of the modelled values (`if expr:`); object instances
are truthy. -/
def Value.truthy : Value → Bool
  | .none => false
  | .vint n => decide (n ≠ 0)
  | .vstr s => decide (s ≠ ("" : String))
  | .vbool b => b
  | .vlist xs => !xs.isEmpty
  | .vdict ps => !ps.isEmpty
  | _ => true

end FreenasCli

namespace FreenasCli

mutual

/-- Python `==` on the modelled values: numeric equality coerces bools to
ints (`True == 1`), strings compare by content, lists compare elementwise;
distinct object instances compare unequal. -/
def Value.pyEq : Value → Value → Bool
  | Value.none, Value.none => true
  | .vint a, .vint b => a == b
  | .vint a, .vbool b => a == (if b then 1 else 0)
  | .vbool a, .vint b => (if a then (1 : Int) else 0) == b
  | .vbool a, .vbool b => a == b
  | .vstr a, .vstr b => a == b
  | .vlist a, .vlist b => Value.pyEqL a b
  | _, _ => false

/-- Elementwise Python equality of lists. -/
def Value.pyEqL : List Value → List Value → Bool
  | [], [] => true
  | a :: xs, b :: ys => a.pyEq b && Value.pyEqL xs ys
  | _, _ => false

end

/-- Numeric view of a value for the arithmetic operators: Python bools are
ints (`True` is `1`). -/
def Value.asArith : Value → Option Int
  | .vint n => some n
  | .vbool b => some (if b then 1 else 0)
  | _ => Option.none

/-- Substring test over character lists, used to model the regex-match
operator. -/
def listContainsSub : List Char → List Char → Bool
  | [], needle => needle.isEmpty
  | h :: t, needle => needle.isPrefixOf (h :: t) || listContainsSub t needle

/-- Modelled from the spec: the builtin operator table is
`freenas/cli/functions.py`, which is not among the sources under review.
Spec section 4.4 says binary expressions "apply the named operator from the
builtin-operator table"; the operators are modelled with their Python
semantics: `+`/`-`/`*` on numbers (bools coerce to ints), `+` also
concatenates strings and lists, comparisons on numbers and strings,
`==`/`!=` as Python equality, `and`/`or` returning an operand by truthiness,
and `~=` (regex match) modelled as substring containment.  Division is
modelled on integers only (no claim exercises it). -/
def applyBinaryOp (op : String) (a b : Value) : Except Err Value :=
  match op with
  | "+" =>
    match a, b with
    | .vstr x, .vstr y => .ok (Value.vstr (x ++ y))
    | .vlist x, .vlist y => .ok (Value.vlist (x ++ y))
    | _, _ =>
      match a.asArith, b.asArith with
      | some x, some y => .ok (Value.vint (x + y))
      | _, _ => .error (.typeErr ("unsupported operand type for +"))
  | "-" =>
    match a.asArith, b.asArith with
    | some x, some y => .ok (Value.vint (x - y))
    | _, _ => .error (.typeErr ("unsupported operand type for -"))
  | "*" =>
    match a.asArith, b.asArith with
    | some x, some y => .ok (Value.vint (x * y))
    | _, _ => .error (.typeErr ("unsupported operand type for *"))
  | "/" =>
    match a.asArith, b.asArith with
    | some x, some y =>
      if y = 0 then .error (.typeErr ("division by zero"))
      else .ok (Value.vint (x / y))
    | _, _ => .error (.typeErr ("unsupported operand type for /"))
  | ">" =>
    match a, b with
    | .vstr x, .vstr y => .ok (Value.vbool (decide (y < x)))
    | _, _ =>
      match a.asArith, b.asArith with
      | some x, some y => .ok (Value.vbool (decide (y < x)))
      | _, _ => .error (.typeErr ("unorderable types"))
  | "<" =>
    match a, b with
    | .vstr x, .vstr y => .ok (Value.vbool (decide (x < y)))
    | _, _ =>
      match a.asArith, b.asArith with
      | some x, some y => .ok (Value.vbool (decide (x < y)))
      | _, _ => .error (.typeErr ("unorderable types"))
  | ">=" =>
    match a, b with
    | .vstr x, .vstr y => .ok (Value.vbool (decide (y ≤ x)))
    | _, _ =>
      match a.asArith, b.asArith with
      | some x, some y => .ok (Value.vbool (decide (y ≤ x)))
      | _, _ => .error (.typeErr ("unorderable types"))
  | "<=" =>
    match a, b with
    | .vstr x, .vstr y => .ok (Value.vbool (decide (x ≤ y)))
    | _, _ =>
      match a.asArith, b.asArith with
      | some x, some y => .ok (Value.vbool (decide (x ≤ y)))
      | _, _ => .error (.typeErr ("unorderable types"))
  | "==" => .ok (Value.vbool (a.pyEq b))
  | "!=" => .ok (Value.vbool (!(a.pyEq b)))
  | "and" => .ok (if a.truthy then b else a)
  | "or" => .ok (if a.truthy then a else b)
  | "~=" =>
    match a, b with
    | .vstr x, .vstr y => .ok (Value.vbool (listContainsSub x.toList y.toList))
    | _, _ => .error (.typeErr ("expected string operands"))
  | _ => .error (.keyErr op)

/-- Modelled from the spec (operator table, see `applyBinaryOp`): the two
unary operators of the grammar, `-` and `not`. -/
def applyUnaryOp (op : String) (a : Value) : Except Err Value :=
  match op with
  | "-" =>
    match a.asArith with
    | some x => .ok (Value.vint (-x))
    | Option.none => .error (.typeErr ("bad operand type for unary -"))
  | "not" => .ok (Value.vbool (!a.truthy))
  | _ => .error (.keyErr op)

/-- Environment-heap read (Python object references are heap indices). -/
def St.getEnv (st : St) (i : Nat) : EnvObj := st.envs i

/-- Environment-heap write. -/
def St.setEnv (st : St) (i : Nat) (e : EnvObj) : St :=
  { st with envs := fun j => if j = i then e else st.envs j }

/-- `env[k] = cell`, a direct dict write into environment `i`. -/
def St.setLocal (st : St) (i : Nat) (k : String) (c : Cell) : St :=
  st.setEnv i ⟨aset (st.getEnv i).vars k c, (st.getEnv i).outer⟩

/-- Allocate a fresh `Environment` object, returning its reference. -/
def St.allocEnv (st : St) (e : EnvObj) : St × Nat :=
  ({ st with
      envs := fun j => if j = st.nextEnv then e else st.envs j,
      nextEnv := st.nextEnv + 1 }, st.nextEnv)

/-- Record an observable invocation of an external collaborator. -/
def St.logEv (st : St) (e : Ev) : St := { st with log := st.log ++ [e] }

/-- Mirrors the `MainLoop.cwd` property (repl.py lines 727-729). -/
def St.cwd (st : St) : NsTree := st.path.getLast?.getD (NsTree.mk ("") [] [])

/-- Mirrors `MainLoop.cd` (repl.py lines 710-716).  `Namespace.on_leave` of
the base class returns True (namespace.py lines 107-108), so the
early-return guard never fires for the modelled tree; `on_enter` is the
hook the mocked tree instruments to record the entry. -/
def St.cd (st : St) (ns : NsTree) : St :=
  let st1 := { st with prevPath := st.path, path := st.path ++ [ns] }
  st1.logEv (Ev.nsEnter st1.cwd.get_name)

/-- Mirrors `MainLoop.cd_up` (repl.py lines 718-725). -/
def St.cd_up (st : St) : St :=
  let st1 := { st with
    prevPath := st.path,
    path := if st.path.length > 1 then st.path.dropLast else st.path }
  st1.logEv (Ev.nsEnter st1.cwd.get_name)

/-- The chain walk of `Environment.find` (repl.py lines 630-640), returning
also the environment in which the binding was found.  The chain is acyclic
in every reachable state; the depth bound only serves termination. -/
def envFindLocChain (st : St) : Nat → Nat → String → Option (Nat × Cell)
  | 0, _, _ => Option.none
  | d + 1, i, k =>
    match alookup (st.getEnv i).vars k with
    | some c => some (i, c)
    | Option.none =>
      match (st.getEnv i).outer with
      | some o => envFindLocChain st d o k
      | Option.none => Option.none

/-- Chain lookup from environment `i` with its location. -/
def envFindLoc (st : St) (i : Nat) (k : String) : Option (Nat × Cell) :=
  envFindLocChain st (st.nextEnv + 1) i k

/-- Mirrors `Environment.find` (repl.py lines 630-640): the scope chain,
then the process-wide builtin-function table, else `KeyError` (here
`Option.none`). -/
def envFind (st : St) (i : Nat) (k : String) : Option Cell :=
  match envFindLoc st i k with
  | some (_, c) => some c
  | Option.none =>
    if st.builtinFunctions.contains k then some (Cell.raw (Value.builtinFunc k))
    else Option.none

/-- Mirrors `MainLoop.pipe_commands` (repl.py lines 644-651). -/
def pipe_commands : List (String × CmdSpec) :=
  [("search", ⟨"search", CmdKind.pipe PipeSpec.search, RVal.none⟩),
   ("exclude", ⟨"exclude", CmdKind.pipe PipeSpec.exclude, RVal.none⟩),
   ("sort", ⟨"sort", CmdKind.pipe PipeSpec.sort, RVal.none⟩),
   ("limit", ⟨"limit", CmdKind.pipe PipeSpec.limit, RVal.none⟩),
   ("select", ⟨"select", CmdKind.pipe PipeSpec.select, RVal.none⟩),
   ("less", ⟨"less", CmdKind.pipe PipeSpec.less, RVal.none⟩)]

/-- Mirrors `MainLoop.base_builtin_commands` (repl.py lines 652-668); the
command bodies live in the absent `freenas/cli/commands.py`, so they are
mocked as plain commands that record their invocation. -/
def base_builtin_commands : List (String × CmdSpec) :=
  [("login", ⟨"login", CmdKind.plain, RVal.none⟩),
   ("exit", ⟨"exit", CmdKind.plain, RVal.none⟩),
   ("setenv", ⟨"setenv", CmdKind.plain, RVal.none⟩),
   ("printenv", ⟨"printenv", CmdKind.plain, RVal.none⟩),
   ("saveenv", ⟨"saveenv", CmdKind.plain, RVal.none⟩),
   ("shell", ⟨"shell", CmdKind.plain, RVal.none⟩),
   ("help", ⟨"help", CmdKind.plain, RVal.none⟩),
   ("top", ⟨"top", CmdKind.plain, RVal.none⟩),
   ("showips", ⟨"showips", CmdKind.plain, RVal.none⟩),
   ("showurls", ⟨"showurls", CmdKind.plain, RVal.none⟩),
   ("source", ⟨"source", CmdKind.plain, RVal.none⟩),
   ("dump", ⟨"dump", CmdKind.plain, RVal.none⟩),
   ("clear", ⟨"clear", CmdKind.plain, RVal.none⟩),
   ("history", ⟨"history", CmdKind.plain, RVal.none⟩),
   ("echo", ⟨"echo", CmdKind.plain, RVal.none⟩)]

/-- Mirrors `MainLoop.builtin_commands` (repl.py lines 669-670). -/
def builtin_commands : List (String × CmdSpec) :=
  base_builtin_commands ++ pipe_commands

/-- Result of `MainLoop.find_in_scope`: a child namespace or a command. -/
inductive ScopeItem where
  | nsI (t : NsTree)
  | cmdI (c : CmdSpec)

/-- Mirrors `MainLoop.find_in_scope` (repl.py lines 755-773): builtin
commands first, then the current namespace's children by name, then its
command table. -/
def find_in_scope (cwd : NsTree) (token : String) : Option ScopeItem :=
  match alookup builtin_commands token with
  | some c => some (ScopeItem.cmdI c)
  | Option.none =>
    match cwd.namespaces.find? (fun ns => ns.get_name = token) with
    | some t => some (ScopeItem.nsI t)
    | Option.none =>
      match alookup cwd.commands token with
      | some c => some (ScopeItem.cmdI c)
      | Option.none => Option.none

/-- Worker for `sort_args` carrying the three accumulators. -/
def sortArgsGo : List Value → List Value → List (String × Value) →
    List (String × String × Value) →
    List Value × List (String × Value) × List (String × String × Value)
  | [], pos, kw, op => (pos, kw, op)
  | v :: rest, pos, kw, op =>
    match v with
    | .tuple3 l o r =>
      if o = ("=" : String) then sortArgsGo rest pos (aset kw l r) op
      else sortArgsGo rest pos kw (op ++ [(l, o, r)])
    | _ => sortArgsGo rest (pos ++ [v]) kw op

/-- Mirrors `sort_args` (repl.py lines 120-135): tuples with operator `=`
become keyword arguments (a Python dict, so duplicate names keep the
last-seen value), other tuples become operator arguments, everything else is
positional. -/
def sort_args (vals : List Value) :
    List Value × List (String × Value) × List (String × String × Value) :=
  sortArgsGo vals [] [] []

mutual

/-- Mirrors the inner `conv` of `convert_to_literals` (repl.py lines
138-151): `Symbol` nodes become string-typed literals (a `Symbol` whose name
is a non-string value keeps that value in the literal), `BinaryParameter`
right-hand sides are converted recursively, lists map elementwise. -/
def convA : Ast → Ast
  | .astList l => .astList (convL l)
  | .symbol s => .litStr s
  | .symbolNum n => .litInt n
  | .symbolBool b => .litBool b
  | .symbolNone => .litNone
  | .binaryParameter l op r => .binaryParameter l op (convA r)
  | t => t

/-- Elementwise conversion. -/
def convL : List Ast → List Ast
  | [] => []
  | t :: rest => convA t :: convL rest

end

/-- Mirrors `convert_to_literals` (repl.py lines 138-151). -/
def convert_to_literals (tokens : List Ast) : List Ast := convL tokens

/-- Mirrors the operator rewriting of the search pushdown (`name == root`
arrives as operator `==` and is serialized as predicate operator `=`). -/
def mapFilterOp (op : String) : String :=
  if op = ("==" : String) then "=" else op

/-- Modelled from the spec: the concrete pipe-command classes
(`SearchPipeCommand`, `SortPipeCommand`, `LimitPipeCommand`, ... of
`freenas/cli/commands.py`) are not among the sources under review.  Spec
sections 4.4/8 say the pushdown pass walks the pipe chain "to collect
filter/sort/limit predicates", mapping `search name == root` to the
predicate list `[name = root]` and `sort name` to sort key `name`.  The
result mirrors the optional `filter`/`params` keys the evaluator reads
(repl.py lines 966-972); stages with nothing to push return `None`, as the
base `PipeCommand.serialize_filter` does (namespace.py lines 155-156). -/
def serialize_filter (ps : PipeSpec) (args : List Value)
    (_kwargs : List (String × Value)) (opargs : List (String × String × Value)) :
    Option (Option (List (String × String × Value)) × Option (List (String × Value))) :=
  match ps with
  | .search => some (some (opargs.map fun t => (t.1, mapFilterOp t.2.1, t.2.2)), Option.none)
  | .sort => some (Option.none, some [(("sort" : String), Value.vlist args)])
  | .limit => some (Option.none, some [(("limit" : String), args.headD Value.none)])
  | _ => Option.none

/-- Allocate the `{"filter": [], "params": {}}` accumulator of the pushdown
pass (repl.py line 1020), returning its reference. -/
def St.allocFilt (st : St) : St × Nat :=
  ({ st with filts := st.filts ++ [⟨[], []⟩] }, st.filts.length)

/-- Read a filter accumulator through its reference. -/
def St.getFilt (st : St) (i : Nat) : Filt := st.filts.getD i ⟨[], []⟩

/-- Mirrors the in-place accumulator update of the `PipeCommand` branch
(repl.py lines 966-972): `serialize_filter` results extend the `filter` list
and `dict.update` the `params`. -/
def St.updFilt (st : St) (i : Nat) (fopt : Option (List (String × String × Value)))
    (popt : Option (List (String × Value))) : St :=
  let f := st.getFilt i
  let f1 : Filt := match fopt with
    | some fs => { f with filter := f.filter ++ fs }
    | Option.none => f
  let f2 : Filt := match popt with
    | some ps => { f1 with params := ps.foldl (fun acc p => aset acc p.1 p.2) f1.params }
    | Option.none => f1
  { st with filts := st.filts.set i f2 }

/-- The mocked `run` implementations of the three command base classes
(spec section 6): a plain `Command.run` and a `FilteringCommand.run` record
their invocation and return the mock's fixed result; `PipeCommand.run` is
wrapped by `PipeCommand.__new__` (namespace.py lines 134-143) so that a
`None` input short-circuits to `None` without reaching the body, and
otherwise (modelled from the spec, the bodies live in the absent
`freenas/cli/commands.py`) records the invocation and passes the input
through. -/
def runCommand (c : CmdSpec) (args : List Value) (kwargs : List (String × Value))
    (opargs : List (String × String × Value)) (filtering : Option Filt)
    (input : Option Value) (st : St) : St × Except Err Value :=
  match c.kind with
  | .plain => (st.logEv (Ev.cmdRun c.name args kwargs opargs), .ok c.ret.toValue)
  | .filtering => (st.logEv (Ev.filtRun c.name args kwargs opargs filtering), .ok c.ret.toValue)
  | .pipe _ =>
    match input with
    | Option.none => (st, .ok Value.none)
    | some v => (st.logEv (Ev.pipeRun c.name args kwargs opargs v), .ok v)

/-- Truthiness of the object `Environment.find` returns: a
`Environment.Variable` cell is an object instance (truthy); a raw entry has
the truthiness of its value. -/
def Cell.truthyAsFound : Cell → Bool
  | .variable _ => true
  | .raw v => v.truthy

/-- The `Symbol` branch unwrapping (repl.py line 824): `item.value` for a
`Variable` cell, the item itself otherwise. -/
def Cell.symbolValue : Cell → Value
  | .variable v => v
  | .raw v => v

/-- Whether a Python object accepts setting a fresh attribute (instances of
user classes do; ints, strings, bools, lists, dicts, tuples and None do
not).  Assigning to a name bound to such an object silently stores a
`value` attribute on it (repl.py line 855) with no semantic effect. -/
def Value.attrSettable : Value → Bool
  | .func _ _ _ _ => true
  | .builtinFunc _ => true
  | .nsVal _ => true
  | .cmdVal _ => true
  | .configVar _ => true
  | .astObj _ => true
  | _ => false

/-- A dict key used in single-variable iteration: dict-literal keys are
unevaluated AST nodes held as objects. -/
def DictKey.toValue : DictKey → Value
  | .val v => v
  | .ast a => Value.astObj a

/-- Python `d[k] = v` with evaluated keys (AST-object keys of dict literals
never equal an evaluated key). -/
def dictSetVal : List (DictKey × Value) → Value → Value → List (DictKey × Value)
  | [], k, v => [(DictKey.val k, v)]
  | (DictKey.val k', v') :: rest, k, v =>
    if k'.pyEq k then (DictKey.val k', v) :: rest
    else (DictKey.val k', v') :: dictSetVal rest k v
  | p :: rest, k, v => p :: dictSetVal rest k v

/-- Python `d[k]` lookup with an evaluated key. -/
def dictGetVal : List (DictKey × Value) → Value → Option Value
  | [], _ => Option.none
  | (DictKey.val k', v') :: rest, k => if k'.pyEq k then some v' else dictGetVal rest k
  | _ :: rest, k => dictGetVal rest k

/-- Python subscripting `expr[index]` (repl.py lines 997-1000): lists and
strings with int indices (negative indices count from the end), tuples, and
dicts by key equality. -/
def subscriptGet (v idx : Value) : Except Err Value :=
  match v with
  | .vlist xs =>
    match idx with
    | .vint n =>
      let i : Int := if n < 0 then n + xs.length else n
      if 0 ≤ i ∧ i < (xs.length : Int) then .ok (xs.getD i.toNat Value.none)
      else .error (.indexErr ("list index out of range"))
    | _ => .error (.typeErr ("list indices must be integers"))
  | .vstr s =>
    match idx with
    | .vint n =>
      let i : Int := if n < 0 then n + s.length else n
      if 0 ≤ i ∧ i < (s.length : Int) then
        .ok (Value.vstr (String.mk [s.toList.getD i.toNat (Char.ofNat 32)]))
      else .error (.indexErr ("string index out of range"))
    | _ => .error (.typeErr ("string indices must be integers"))
  | .tuple3 l op r =>
    match idx with
    | .vint 0 => .ok (Value.vstr l)
    | .vint 1 => .ok (Value.vstr op)
    | .vint 2 => .ok r
    | _ => .error (.indexErr ("tuple index out of range"))
  | .vdict ps =>
    match idx with
    | .vlist _ => .error (.typeErr ("unhashable type"))
    | .vdict _ => .error (.typeErr ("unhashable type"))
    | _ =>
      match dictGetVal ps idx with
      | some r => .ok r
      | Option.none => .error (.keyErr ("key not present"))
  | _ => .error (.typeErr ("object is not subscriptable"))

end FreenasCli

namespace FreenasCli

/-- The shape of `MainLoop.eval` (repl.py line 788): token, environment
reference, path accumulator, optional pushdown accumulator reference,
optional pipe input, dry-run flag. -/
abbrev EvalFn := Ast → Nat → List NsTree → Option Nat → Option Value → Bool → St →
  St × Except Err Value

/-- Sequencing of state-threaded fallible computations (Python exceptions
propagate, partial state updates stay). -/
def bindE {α β : Type} (r : St × Except Err α) (k : α → St → St × Except Err β) :
    St × Except Err β :=
  match r with
  | (st, .ok v) => k v st
  | (st, .error e) => (st, .error e)

/-- A unit-valued computation finishing as the Python `None` return. -/
def finishUnit (r : St × Except Err Unit) : St × Except Err Value :=
  match r with
  | (st, .ok ()) => (st, .ok Value.none)
  | (st, .error e) => (st, .error e)

/-- Elementwise evaluation of a Python list of AST nodes
(`[self.eval(i, env, path) for i in token]`). -/
def runList (ev : EvalFn) (envId : Nat) (path : List NsTree) :
    List Ast → St → St × Except Err (List Value)
  | [], st => (st, .ok [])
  | a :: rest, st =>
    bindE (ev a envId path Option.none Option.none false st) fun v st1 =>
    bindE (runList ev envId path rest st1) fun vs st2 =>
    (st2, .ok (v :: vs))

/-- Evaluation of a dict literal: the values are evaluated, the keys stay
as the unevaluated AST nodes the parser stored (repl.py line 817). -/
def runDict (ev : EvalFn) (envId : Nat) :
    List (Ast × Ast) → St → St × Except Err (List (DictKey × Value))
  | [], st => (st, .ok [])
  | (k, vAst) :: rest, st =>
    bindE (ev vAst envId [] Option.none Option.none false st) fun v st1 =>
    bindE (runDict ev envId rest st1) fun ps st2 =>
    (st2, .ok ((DictKey.ast k, v) :: ps))

/-- Mirrors `MainLoop.eval_block` (repl.py lines 775-786): statements are
evaluated in order; a `FlowControlInstruction` return value is re-raised as
an exception, except that a BREAK in a block that does not allow it raises
the SyntaxError of line 784. -/
def runBlock (ev : EvalFn) (envId : Nat) (allowBreak : Bool) :
    List Ast → St → St × Except Err Unit
  | [], st => (st, .ok ())
  | stmt :: rest, st =>
    match ev stmt envId [] Option.none Option.none false st with
    | (st1, .error e) => (st1, .error e)
    | (st1, .ok (Value.fciV t payload)) =>
      match t, allowBreak with
      | FlowControlInstructionType.BREAK, false =>
        (st1, .error (Err.syntaxErr ("\x27break\x27 cannot be used in this block")))
      | _, _ => (st1, .error (Err.flow t payload))
    | (st1, .ok _) => runBlock ev envId allowBreak rest st1

/-- One iteration sequence of the single-variable `for` loop (repl.py lines
882-891): the loop variable is stored raw into the reused body environment,
the body runs with `allow_break`, a BREAK flow signal ends the loop, any
other exception (including a RETURN signal) propagates. -/
def runForIter (ev : EvalFn) (var : String) (body : List Ast) (lid : Nat) :
    List Value → St → St × Except Err Unit
  | [], st => (st, .ok ())
  | v :: rest, st =>
    let st1 := st.setLocal lid var (Cell.raw v)
    match runBlock ev lid true body st1 with
    | (st2, .ok ()) => runForIter ev var body lid rest st2
    | (st2, .error (Err.flow FlowControlInstructionType.BREAK _)) => (st2, .ok ())
    | (st2, .error e) => (st2, .error e)

/-- The two-variable `for` form over `expr.items()` (repl.py lines
871-881). -/
def runForIterPairs (ev : EvalFn) (kvar vvar : String) (body : List Ast) (lid : Nat) :
    List (DictKey × Value) → St → St × Except Err Unit
  | [], st => (st, .ok ())
  | (k, v) :: rest, st =>
    let st1 := (st.setLocal lid kvar (Cell.raw k.toValue)).setLocal lid vvar (Cell.raw v)
    match runBlock ev lid true body st1 with
    | (st2, .ok ()) => runForIterPairs ev kvar vvar body lid rest st2
    | (st2, .error (Err.flow FlowControlInstructionType.BREAK _)) => (st2, .ok ())
    | (st2, .error e) => (st2, .error e)

/-- The `while` loop (repl.py lines 895-908): the condition is evaluated in
the enclosing environment, the body in the one reused local environment; a
falsy condition or a BREAK signal ends the loop.  The iteration bound is
the model's analogue of nontermination (a real `while True` loops forever). -/
def runWhile (ev : EvalFn) (cond : Ast) (body : List Ast) (condEnv lid : Nat) :
    Nat → St → St × Except Err Unit
  | 0, st => (st, .error Err.fuel)
  | n + 1, st =>
    match ev cond condEnv [] Option.none Option.none false st with
    | (st1, .error e) => (st1, .error e)
    | (st1, .ok c) =>
      if c.truthy then
        match runBlock ev lid true body st1 with
        | (st2, .ok ()) => runWhile ev cond body condEnv lid n st2
        | (st2, .error (Err.flow FlowControlInstructionType.BREAK _)) => (st2, .ok ())
        | (st2, .error e) => (st2, .error e)
      else (st1, .ok ())

/-- Mirrors `Function.__call__` (repl.py lines 584-592): a fresh environment
chained to the closure binds parameter names positionally (`zip` truncates
to the shorter list), the body runs with `allow_break = False`, a RETURN
flow signal is unwrapped to its payload, any other exception (including a
BREAK signal) propagates, and normal completion returns `None`. -/
def callUser (ev : EvalFn) (params : List String) (body : List Ast) (fenvId : Nat)
    (args : List Value) (st : St) : St × Except Err Value :=
  let (st1, newId) := st.allocEnv
    ⟨(params.zip args).map (fun p => (p.1, Cell.variable p.2)), some fenvId⟩
  match runBlock ev newId false body st1 with
  | (st2, .ok ()) => (st2, .ok Value.none)
  | (st2, .error (Err.flow FlowControlInstructionType.RETURN payload)) => (st2, .ok payload)
  | (st2, .error e) => (st2, .error e)

/-- The `Literal`-to-`Symbol` promotion of the first command item (repl.py
lines 945-946). -/
def convTopLit : Ast → Ast
  | .litStr s => .symbol s
  | .litInt n => .symbolNum n
  | .litBool b => .symbolBool b
  | .litNone => .symbolNone
  | t => t

/-- Rendering of an AST node kind for the unknown-token SyntaxError of
repl.py line 1038 (for a raw string token, `str` formats the string
itself). -/
def astClassName : Ast → String
  | .comment _ => "Comment"
  | .anonymousFunction _ _ => "AnonymousFunction"
  | .redirection _ _ => "Redirection"
  | .undefStatement _ => "UndefStatement"
  | .word s => s
  | _ => "token"

/-- The error raised when the first command item resolves to neither a
namespace nor a command (repl.py lines 983-984): a SyntaxError formatted
with `top.name` for name-carrying tops; a top without a `name` attribute
would raise AttributeError instead (unreachable through the claims). -/
def topFellErr : Ast → Err
  | .symbol s => .syntaxErr ("Command or namespace " ++ s ++ " not found")
  | .symbolNum n => .syntaxErr ("Command or namespace " ++ toString n ++ " not found")
  | .symbolBool b =>
    .syntaxErr ("Command or namespace " ++ (if b then ("True" : String) else ("False" : String))
      ++ " not found")
  | .symbolNone => .syntaxErr ("Command or namespace None not found")
  | _ => .attrErr ("object has no attribute name")

/-- How the evaluated first command item classifies after the
string/int/bool re-resolution of repl.py lines 950-951. -/
inductive Resolved where
  | nsR (t : NsTree)
  | cmdR (c : CmdSpec)
  | nothing

/-- Injection of a scope lookup into the classification. -/
def ofScope : Option ScopeItem → Resolved
  | some (.nsI t) => Resolved.nsR t
  | some (.cmdI c) => Resolved.cmdR c
  | Option.none => Resolved.nothing

/-- Mirrors repl.py lines 950-956: a string/int/bool item is re-resolved
through `find_in_scope(str(item))`; then the item is classified as
Namespace, Command, or neither. -/
def resolveItem (cwd : NsTree) (v : Value) : Resolved :=
  match v with
  | .nsVal t => Resolved.nsR t
  | .cmdVal c => Resolved.cmdR c
  | .vstr s => ofScope (find_in_scope cwd s)
  | .vbool b =>
    ofScope (find_in_scope cwd (if b then ("True" : String) else ("False" : String)))
  | .vint n => ofScope (find_in_scope cwd (toString n))
  | _ => Resolved.nothing

/-- Result of the body of the CommandCall `try` block: either a `return`ed
value or falling off the end of the block (neither namespace nor command). -/
inductive CmdOutcome where
  | ret (v : Value)
  | fell (e : Err)

/-- The `success` flag bookkeeping wrapped around the CommandCall branch
(repl.py lines 928, 977-984): the `finally` stores `_success` as a fresh
`Variable` in the evaluation environment — `True` on a normal return,
`False` when an exception escaped; when control falls off the try block the
`finally` first stores `True`, line 983 then overwrites it with `False`, and
line 984 raises the not-found SyntaxError. -/
def cmdWrap (envId : Nat) (r : St × Except Err CmdOutcome) : St × Except Err Value :=
  match r with
  | (st, .ok (CmdOutcome.ret v)) =>
    (st.setLocal envId ("_success") (Cell.variable (Value.vbool true)), .ok v)
  | (st, .ok (CmdOutcome.fell e)) =>
    ((st.setLocal envId ("_success") (Cell.variable (Value.vbool true))).setLocal envId
      ("_success") (Cell.variable (Value.vbool false)), .error e)
  | (st, .error e) =>
    (st.setLocal envId ("_success") (Cell.variable (Value.vbool false)), .error e)

/-- Repackaging of a full re-entrant `eval` result (`return self.eval(...)`
inside the CommandCall branch) as the outcome of the enclosing try block. -/
def reenter (r : St × Except Err Value) : St × Except Err CmdOutcome :=
  match r with
  | (st, .ok v) => (st, .ok (CmdOutcome.ret v))
  | (st, .error e) => (st, .error e)

/-- The zero-items `cd` loop (repl.py lines 931-935). -/
def cdAll : List NsTree → St → St
  | [], st => st
  | n :: rest, st => cdAll rest (st.cd n)

/-- Whether a command item is the raw string `'..'` (repl.py line 938
compares the popped item against the string). -/
def isDotDot : Ast → Bool
  | .word w => w = (".." : String)
  | _ => false

/-- The body of the CommandCall branch of `MainLoop.eval` (repl.py lines
926-984) without its `_success` bookkeeping (see `cmdWrap`): with no items
left every namespace accumulated in `path` is entered via `cd`; `'..'` pops
a path level (or does `cd_up` at the root) and re-enters `eval` with the
default keyword arguments; otherwise the first item is promoted from
`Literal` to `Symbol`, evaluated, re-resolved when it is a string/int/bool,
and classified: a Namespace recurses with an extended path (forwarding only
`dry_run`), a Command evaluates the remaining parameters through
`convert_to_literals` and `sort_args` and is run (dry-run returns the
5-tuple instead; a PipeCommand first feeds `serialize_filter` into the
pushdown accumulator when one is active and receives the pipe input),
anything else falls through to the not-found error. -/
def runCmdCore (ev : EvalFn) (envId : Nat) :
    List Ast → List NsTree → Option Nat → Option Value → Bool → St →
    St × Except Err CmdOutcome
  | [], path, _, _, _, st => (cdAll path st, .ok (CmdOutcome.ret Value.none))
  | top :: rest, path, sf, input, dry, st =>
    let cwd := path.getLast?.getD st.cwd
    if isDotDot top then
      if path.isEmpty then (st.cd_up, .ok (CmdOutcome.ret Value.none))
      else
        reenter (cmdWrap envId
          (runCmdCore ev envId rest path.dropLast Option.none Option.none false st))
    else
      let top' := convTopLit top
      match ev top' envId path Option.none Option.none false st with
      | (st1, .error e) => (st1, .error e)
      | (st1, .ok item) =>
        match resolveItem cwd item with
        | Resolved.nsR t =>
          let st2 := st1.logEv (Ev.nsEnter t.get_name)
          reenter (cmdWrap envId
            (runCmdCore ev envId rest (path ++ [t]) Option.none Option.none dry st2))
        | Resolved.cmdR c =>
          match runList ev envId [] (convert_to_literals rest) st1 with
          | (st2, .error e) => (st2, .error e)
          | (st2, .ok argv) =>
            match sort_args argv with
            | (pos, kw, op) =>
              if dry then (st2, .ok (CmdOutcome.ret (Value.dryRes c cwd pos kw op)))
              else
                match c.kind, sf with
                | CmdKind.pipe ps, some idx =>
                  let st3 := match serialize_filter ps pos kw op with
                    | some (fopt, popt) => st2.updFilt idx fopt popt
                    | Option.none => st2
                  reenter (runCommand c pos kw op Option.none input st3)
                | CmdKind.pipe _, Option.none =>
                  reenter (runCommand c pos kw op Option.none input st2)
                | _, _ =>
                  reenter (runCommand c pos kw op Option.none Option.none st2)
        | Resolved.nothing => (st1, .ok (CmdOutcome.fell (topFellErr top')))

end FreenasCli

namespace FreenasCli

/-- Write-back of a mutated container (subscript assignment, repl.py lines
848-852).  Python mutates the indexed container in place through the object
reference; the model uses value semantics, so when the subscripted
expression is a plain variable the updated container is stored back into
the cell that held it, which coincides with the in-place mutation for the
direct-variable case (aliasing through further references is not exercised
by any claim and is noted as an approximation). -/
def writeBack (st : St) (envId : Nat) (te : Ast) (newV : Value) : St :=
  match te with
  | .symbol name =>
    match envFindLoc st envId name with
    | some (j, Cell.variable _) => st.setLocal j name (Cell.variable newV)
    | some (j, Cell.raw _) => st.setLocal j name (Cell.raw newV)
    | Option.none => st
  | _ => st

/-- The subscript-assignment branch `array[index] = expr` (repl.py lines
848-852) once array, index and right-hand side are evaluated. -/
def subscriptAssign (st : St) (envId : Nat) (te : Ast) (arr idx rhs : Value) :
    St × Except Err Value :=
  match arr with
  | .vlist xs =>
    match idx with
    | .vint n =>
      let i : Int := if n < 0 then n + xs.length else n
      if 0 ≤ i ∧ i < (xs.length : Int) then
        (writeBack st envId te (Value.vlist (xs.set i.toNat rhs)), .ok Value.none)
      else (st, .error (Err.indexErr ("list assignment index out of range")))
    | _ => (st, .error (Err.typeErr ("list indices must be integers")))
  | .vdict ps =>
    match idx with
    | .vlist _ => (st, .error (Err.typeErr ("unhashable type")))
    | .vdict _ => (st, .error (Err.typeErr ("unhashable type")))
    | _ => (writeBack st envId te (Value.vdict (dictSetVal ps idx rhs)), .ok Value.none)
  | _ => (st, .error (Err.typeErr ("object does not support item assignment")))

/-- Mirrors `MainLoop.eval` (repl.py lines 788-1038), the tree-walking
evaluator: the `start_from_root` reset, the entry computation of `cwd`, and
the isinstance dispatch over the AST node kinds.  The fuel argument is the
model's analogue of the host recursion limit and decreases on every nested
`eval` call; the AST node kinds the source never dispatches on (raw word
strings, `AnonymousFunction`, `Redirection`, `Comment`) reach the trailing
unknown-token SyntaxError of line 1038. -/
def evalT : Nat → Ast → Nat → List NsTree → Option Nat → Option Value → Bool → St →
    St × Except Err Value
  | 0, _, _, _, _, _, _, st => (st, .error Err.fuel)
  | Nat.succ fuel, token, envId, path, sf, input, dry, st0 =>
    let ev : EvalFn := fun t e p s i d stx => evalT fuel t e p s i d stx
    let st := if st0.startFromRoot
      then { st0 with path := st0.rootPath, startFromRoot := false } else st0
    let cwd := path.getLast?.getD st.cwd
    match token with
    | .astList elems =>
      bindE (runList ev envId path elems st) fun vs st1 => (st1, .ok (Value.vlist vs))
    | .unaryExpr e op =>
      bindE (ev e envId [] Option.none Option.none false st) fun v st1 =>
      (st1, applyUnaryOp op v)
    | .binaryExpr l op r =>
      bindE (ev l envId [] Option.none Option.none false st) fun lv st1 =>
      bindE (ev r envId [] Option.none Option.none false st1) fun rv st2 =>
      (st2, applyBinaryOp op lv rv)
    | .litInt n => (st, .ok (Value.vint n))
    | .litStr s => (st, .ok (Value.vstr s))
    | .litBool b => (st, .ok (Value.vbool b))
    | .litNone => (st, .ok Value.none)
    | .litList elems =>
      bindE (runList ev envId [] elems st) fun vs st1 => (st1, .ok (Value.vlist vs))
    | .litDict pairs =>
      bindE (runDict ev envId pairs st) fun ps st1 => (st1, .ok (Value.vdict ps))
    | .symbol name =>
      match envFind st envId name with
      | some cell => (st, .ok cell.symbolValue)
      | Option.none =>
        match find_in_scope cwd name with
        | some (.nsI t) => (st, .ok (Value.nsVal t))
        | some (.cmdI c) => (st, .ok (Value.cmdVal c))
        | Option.none =>
          match alookup st.configVars name with
          | some _ => (st, .ok (Value.configVar name))
          | Option.none => (st, .error (Err.syntaxErr (name ++ " not found")))
    | .symbolNum n =>
      (st, .error (Err.syntaxErr (toString n ++ " not found")))
    | .symbolBool b =>
      (st, .error (Err.syntaxErr ((if b then ("True" : String) else ("False" : String))
        ++ " not found")))
    | .symbolNone => (st, .error (Err.syntaxErr ("None not found")))
    | .assignName name e =>
      bindE (ev e envId [] Option.none Option.none false st) fun rhs st1 =>
      match alookup st1.configVars name with
      | some _ =>
        (st1, .error (Err.syntaxErr
          (name ++ " is an Environment Variable. Use `setenv` command to set it")))
      | Option.none =>
        match envFindLoc st1 envId name with
        | some (j, Cell.variable _) =>
          (st1.setLocal j name (Cell.variable rhs), .ok Value.none)
        | some (_, Cell.raw v) =>
          if v.attrSettable then (st1, .ok Value.none)
          else (st1, .error (Err.attrErr ("object has no attribute value")))
        | Option.none =>
          if st1.builtinFunctions.contains name then (st1, .ok Value.none)
          else (st1.setLocal envId name (Cell.variable rhs), .ok Value.none)
    | .assignSubscript target e =>
      bindE (ev e envId [] Option.none Option.none false st) fun rhs st1 =>
      match target with
      | .subscript te ti =>
        bindE (ev te envId [] Option.none Option.none false st1) fun arr st2 =>
        bindE (ev ti envId [] Option.none Option.none false st2) fun idx st3 =>
        subscriptAssign st3 envId te arr idx rhs
      | _ => (st1, .error (Err.typeErr ("assignment target is not a subscript")))
    | .ifStatement cond body elseB =>
      bindE (ev cond envId [] Option.none Option.none false st) fun c st1 =>
      let chosen := if c.truthy then body else elseB
      let al := st1.allocEnv ⟨[], some envId⟩
      finishUnit (runBlock ev al.2 false chosen al.1)
    | .forStatement var e body =>
      let al := st.allocEnv ⟨[], some envId⟩
      bindE (ev e envId [] Option.none Option.none false al.1) fun xs st2 =>
      match xs with
      | .vlist vs => finishUnit (runForIter ev var body al.2 vs st2)
      | .vdict ps =>
        finishUnit (runForIter ev var body al.2 (ps.map fun p => p.1.toValue) st2)
      | _ => (st2, .error (Err.typeErr ("object is not iterable")))
    | .forStatement2 kvar vvar e body =>
      let al := st.allocEnv ⟨[], some envId⟩
      bindE (ev e envId [] Option.none Option.none false al.1) fun xs st2 =>
      match xs with
      | .vdict ps => finishUnit (runForIterPairs ev kvar vvar body al.2 ps st2)
      | _ => (st2, .error (Err.attrErr ("object has no attribute items")))
    | .whileStatement cond body =>
      let al := st.allocEnv ⟨[], some envId⟩
      finishUnit (runWhile ev cond body envId al.2 fuel al.1)
    | .returnStatement e =>
      bindE (ev e envId [] Option.none Option.none false st) fun v st1 =>
      (st1, .ok (Value.fciV FlowControlInstructionType.RETURN v))
    | .breakStatement => (st, .ok (Value.fciV FlowControlInstructionType.BREAK Value.none))
    | .undefStatement name =>
      let eobj := st.getEnv envId
      match alookup eobj.vars name with
      | Option.none => (st, .error (Err.keyErr name))
      | some _ =>
        let st1 := st.setEnv envId ⟨adel eobj.vars name, eobj.outer⟩
        (st1, .error (Err.syntaxErr ("Unknown AST token: "
          ++ astClassName (Ast.undefStatement name))))
    | .exprExpansion e => ev e envId [] Option.none Option.none false st
    | .commandCall args =>
      cmdWrap envId (runCmdCore ev envId args path sf input dry st)
    | .functionCall name fargs =>
      bindE (runList ev envId [] fargs st) fun argv st1 =>
      match envFind st1 envId name with
      | Option.none => (st1, .error (Err.keyErr name))
      | some cell =>
        if cell.truthyAsFound then
          match cell with
          | Cell.raw (Value.func fn params body fenv) =>
            let st2 := { st1 with
              callStack := st1.callStack ++ [(⟨fn, argv⟩ : CallStackEntry)] }
            match callUser ev params body fenv argv st2 with
            | (st3, .ok res) =>
              ({ st3 with callStack := st3.callStack.dropLast }, .ok res)
            | (st3, .error e) => (st3, .error e)
          | Cell.raw (Value.builtinFunc fn) =>
            let st2 := { st1 with
              callStack := st1.callStack ++ [(⟨fn, argv⟩ : CallStackEntry)] }
            let st3 := st2.logEv (Ev.builtinCall fn argv)
            ({ st3 with callStack := st3.callStack.dropLast }, .ok Value.none)
          | _ => (st1, .error (Err.attrErr ("object has no attribute name")))
        else (st1, .error (Err.syntaxErr ("Function " ++ name ++ " not found")))
    | .subscript e i =>
      bindE (ev e envId [] Option.none Option.none false st) fun v st1 =>
      bindE (ev i envId [] Option.none Option.none false st1) fun iv st2 =>
      (st2, subscriptGet v iv)
    | .functionDefinition name params body =>
      (st.setLocal envId name (Cell.raw (Value.func name params body envId)), .ok Value.none)
    | .binaryParameter l op r =>
      bindE (ev r envId [] Option.none Option.none false st) fun rv st1 =>
      (st1, .ok (Value.tuple3 l op rv))
    | .pipeExpr left right =>
      match sf with
      | some idx =>
        bindE (ev left envId path (some idx) Option.none false st) fun _ st1 =>
        bindE (ev right envId path (some idx) Option.none false st1) fun _ st2 =>
        (st2, .ok Value.none)
      | Option.none =>
        bindE (ev left envId path Option.none Option.none true st) fun dv st1 =>
        match dv with
        | Value.dryRes cmd cwd2 cargs ckwargs copargs =>
          let st2 := st1.logEv (Ev.nsEnter cwd2.get_name)
          let st3 := { st2 with pipeCwd := some cwd2 }
          match cmd.kind with
          | CmdKind.filtering =>
            let af := st3.allocFilt
            bindE (ev right envId path (some af.2) Option.none false af.1) fun _ st5 =>
            bindE (runCommand cmd cargs ckwargs copargs (some (st5.getFilt af.2))
                Option.none st5) fun result st6 =>
            bindE (ev right 0 [] Option.none (some result) false st6) fun ret st7 =>
            ({ st7 with pipeCwd := Option.none }, .ok ret)
          | CmdKind.pipe _ =>
            bindE (runCommand cmd cargs ckwargs copargs Option.none input st3)
              fun result st4 =>
            bindE (ev right 0 [] Option.none (some result) false st4) fun ret st5 =>
            ({ st5 with pipeCwd := Option.none }, .ok ret)
          | CmdKind.plain =>
            bindE (runCommand cmd cargs ckwargs copargs Option.none Option.none st3)
              fun result st4 =>
            bindE (ev right 0 [] Option.none (some result) false st4) fun ret st5 =>
            ({ st5 with pipeCwd := Option.none }, .ok ret)
        | _ => (st1, .error (Err.typeErr ("cannot unpack non-sequence")))
    | t => (st, .error (Err.syntaxErr ("Unknown AST token: " ++ astClassName t)))

/-- The default config-variable store of `VariableStore.__init__` (repl.py
lines 178-191): only names and current values are modelled (the
type/choices metadata of `Variable` is not read by any modelled code path);
the `language` default reads the LANG environment variable with fallback C,
modelled as the fallback. -/
def defaultConfigVars : List (String × Value) :=
  [("output_format", Value.vstr ("ascii")),
   ("datetime_format", Value.vstr ("natural")),
   ("language", Value.vstr ("C")),
   ("prompt", Value.vstr ("\x7bhost\x7d:\x7bpath\x7d>")),
   ("timeout", Value.vint 10),
   ("tasks_blocking", Value.vbool false),
   ("show_events", Value.vbool true),
   ("debug", Value.vbool false)]

/-- A fresh session over a given root namespace, mirroring
`Context.__init__` (global environment at reference 0, a call stack seeded
with the stdin entry, the default variable store) and `MainLoop.__init__`
(root path, path and previous path all at the root). -/
def initSt (root : NsTree) : St where
  envs := fun _ => ⟨[], Option.none⟩
  nextEnv := 1
  path := [root]
  prevPath := [root]
  rootPath := [root]
  startFromRoot := false
  callStack := [⟨("<stdin>"), []⟩]
  configVars := defaultConfigVars
  builtinFunctions := []
  filts := []
  pipeCwd := Option.none
  log := []

/-- Top-level statement evaluation exactly as `MainLoop.process` invokes it
(repl.py line 1071): `self.eval(i)` with every keyword argument at its
default — the global environment, an empty path accumulator, no pushdown
accumulator, no pipe input, no dry run. -/
def evalTopF (fuel : Nat) (token : Ast) (st : St) : St × Except Err Value :=
  evalT fuel token 0 [] Option.none Option.none false st

/-- Top-level evaluation at the default fuel used by the concrete runs. -/
def evalTop (token : Ast) (st : St) : St × Except Err Value := evalTopF 100 token st

end FreenasCli

namespace FreenasCli

/-- The token stream of the lexer (parser.py lines 103-109 plus the
reserved keywords of lines 84-100).  Token values (the lexed integer of a
number, the text of an atom or string) are carried in the constructors. -/
inductive Token where
  | ATOM (s : String)
  | NUMBER (n : Int)
  | HEXNUMBER (n : Int)
  | OCTNUMBER (n : Int)
  | BINNUMBER (n : Int)
  | STRING (s : String)
  | TRUE
  | FALSE
  | NULL
  | IF
  | ELSE
  | FOR
  | WHILE
  | IN
  | FUNCTION
  | RETURN
  | BREAK
  | AND
  | OR
  | NOT
  | UNDEF
  | ASSIGN
  | LPAREN
  | RPAREN
  | EQ
  | NE
  | GT
  | GE
  | LT
  | LE
  | REGEX
  | UP
  | PIPE
  | LIST
  | COMMA
  | INC
  | DEC
  | PLUS
  | MINUS
  | MUL
  | DIV
  | EOPEN
  | COPEN
  | LBRACE
  | RBRACE
  | LBRACKET
  | RBRACKET
  | NEWLINE
  | COLON
  | REDIRECT
deriving DecidableEq, Repr

/-- The opening-brace character, written by code point to keep braces out
of the source text. -/
def lbraceChar : Char := Char.ofNat 123

/-- The closing-brace character. -/
def rbraceChar : Char := Char.ofNat 125

/-- Character class of `t_ATOM`'s first character: `[0-9a-zA-Z_]`. -/
def isAtomStart (c : Char) : Bool :=
  c.isDigit || c.isAlpha || c = '_'

/-- Character class of `t_ATOM`'s continuation characters:
`[0-9a-zA-Z_\.\/#@\:]` (parser.py line 201). -/
def isAtomChar (c : Char) : Bool :=
  c.isDigit || c.isAlpha || c = '_' || c = '.' || c = '/' || c = '#' || c = '@' || c = ':'

/-- Hex-digit class `[0-9a-fA-F]`. -/
def isHexc (c : Char) : Bool :=
  c.isDigit || (('a' ≤ c) && (c ≤ 'f')) || (('A' ≤ c) && (c ≤ 'F'))

/-- Value of a decimal digit string. -/
def digitsVal (ds : List Char) : Int :=
  ds.foldl (fun acc c => acc * 10 + (c.toNat - 48)) 0

/-- Value of one hex digit. -/
def hexDigitVal (c : Char) : Nat :=
  if c.isDigit then c.toNat - 48
  else if ('a' ≤ c) && (c ≤ 'f') then c.toNat - 87
  else c.toNat - 55

/-- Value of a digit string in a given base. -/
def baseVal (base : Nat) (ds : List Char) : Int :=
  ds.foldl (fun acc c => acc * base + (hexDigitVal c : Int)) 0

/-- One or more decimal digits (`\d+`), greedy. -/
def pDigits1 (cs : List Char) : Option (List Char × List Char) :=
  let p := cs.span Char.isDigit
  if p.1.isEmpty then Option.none else some p

/-- Up to `n` leading characters satisfying `p`, at least one. -/
def pTake1toN (p : Char → Bool) : Nat → List Char → Option (List Char × List Char)
  | _, [] => Option.none
  | 0, _ => Option.none
  | n + 1, c :: cs =>
    if p c then
      match pTake1toN p n cs with
      | some (tk, rest) => some (c :: tk, rest)
      | Option.none => some ([c], cs)
    else Option.none

/-- Mirrors `t_COMMENT` (parser.py lines 112-114): `#` to end of line,
discarded. -/
def ruleCOMMENT (cs : List Char) : Option (List Char) :=
  match cs with
  | '#' :: rest => some (rest.span (fun c => c ≠ '\n')).2
  | _ => Option.none

/-- Mirrors `t_IPV4` (parser.py lines 117-120): `\d+\.\d+\.\d+\.\d+`
lexes as an ATOM. -/
def ruleIPV4 (cs : List Char) : Option (Token × List Char) :=
  match pDigits1 cs with
  | some (d1, '.' :: r1) =>
    match pDigits1 r1 with
    | some (d2, '.' :: r2) =>
      match pDigits1 r2 with
      | some (d3, '.' :: r3) =>
        match pDigits1 r3 with
        | some (d4, rest) =>
          some (Token.ATOM (String.mk (d1 ++ ['.'] ++ d2 ++ ['.'] ++ d3 ++ ['.'] ++ d4)), rest)
        | _ => Option.none
      | _ => Option.none
    | _ => Option.none
  | _ => Option.none

/-- Greedy repetition of `hex{1,4}:` groups (at most seven), returning the
consumed text. -/
def pIpv6Groups : Nat → List Char → List Char × List Char
  | 0, cs => ([], cs)
  | n + 1, cs =>
    match pTake1toN isHexc 4 cs with
    | some (h, ':' :: r) =>
      let p := pIpv6Groups n r
      (h ++ [':'] ++ p.1, p.2)
    | _ => ([], cs)

/-- Greedy repetition of `[hex:?]{1,4}` groups (at most seven). -/
def pIpv6Tail : Nat → List Char → List Char × List Char
  | 0, cs => ([], cs)
  | n + 1, cs =>
    match pTake1toN (fun c => isHexc c || c = ':' || c = '?') 4 cs with
    | some (h, r) =>
      let p := pIpv6Tail n r
      (h ++ p.1, p.2)
    | Option.none => ([], cs)

/-- Mirrors `t_IPV6` (parser.py lines 123-126):
`([a-fA-F0-9]{1,4}:){1,7}:?([a-fA-F0-9:?]{1,4}){1,7}` lexes as an ATOM.
The model matches greedily without backtracking, which agrees with the
regex on every input a claim exercises (no claim input contains a hex
sequence followed by a colon). -/
def ruleIPV6 (cs : List Char) : Option (Token × List Char) :=
  let g := pIpv6Groups 7 cs
  if g.1.isEmpty then Option.none
  else
    let (opt, r1) := match g.2 with
      | ':' :: r => ([':'], r)
      | r => (([] : List Char), r)
    let t := pIpv6Tail 7 r1
    if t.1.isEmpty then Option.none
    else some (Token.ATOM (String.mk (g.1 ++ opt ++ t.1)), t.2)

/-- The suffix-multiplier chain of `t_SIZE` (parser.py lines 136-158),
applied to the lowercased suffix. -/
def sizeMultApply (v : Int) (suffix : String) : Int :=
  let v := if suffix = ("kib" : String) then v * 1024 else v
  let v := if suffix = ("k" : String) ∨ suffix = ("kb" : String) then v * 1000 else v
  let v := if suffix = ("mib" : String) then v * (1024 * 1024) else v
  let v := if suffix = ("m" : String) ∨ suffix = ("mb" : String) then v * (1000 * 1000) else v
  let v := if suffix = ("gib" : String) then v * (1024 * 1024 * 1024) else v
  let v := if suffix = ("g" : String) ∨ suffix = ("gb" : String)
    then v * (1000 * 1000 * 1000) else v
  let v := if suffix = ("tib" : String) then v * (1024 * 1024 * 1024 * 1024) else v
  let v := if suffix = ("t" : String) ∨ suffix = ("tb" : String)
    then v * (1000 * 1000 * 1000 * 1000) else v
  v

/-- Mirrors `t_SIZE` (parser.py lines 129-161):
`(\d+)([kKmMgGtT][iI]?[Bb]?)` lexes as a NUMBER whose value is scaled by
the decimal (`k`/`kb`) or binary (`kib`) suffix, likewise for m/g/t. -/
def ruleSIZE (cs : List Char) : Option (Token × List Char) :=
  match pDigits1 cs with
  | some (ds, c :: r0) =>
    if c = 'k' ∨ c = 'K' ∨ c = 'm' ∨ c = 'M' ∨ c = 'g' ∨ c = 'G' ∨ c = 't' ∨ c = 'T' then
      let (i, r1) := match r0 with
        | 'i' :: r => (['i'], r)
        | 'I' :: r => (['I'], r)
        | r => (([] : List Char), r)
      let (b, r2) := match r1 with
        | 'b' :: r => (['b'], r)
        | 'B' :: r => (['B'], r)
        | r => (([] : List Char), r)
      let suffix := String.mk ((c :: i ++ b).map Char.toLower)
      some (Token.NUMBER (sizeMultApply (digitsVal ds) suffix), r2)
    else Option.none
  | _ => Option.none

/-- One `\d+:\d+\.?\d*` group of `t_TIMEDELTA`. -/
def pTimeGroup (cs : List Char) : Option (List Char × List Char) :=
  match pDigits1 cs with
  | some (d1, ':' :: r1) =>
    match pDigits1 r1 with
    | some (d2, r2) =>
      let (dot, r3) := match r2 with
        | '.' :: r => (['.'], r)
        | r => (([] : List Char), r)
      let p := r3.span Char.isDigit
      some (d1 ++ [':'] ++ d2 ++ dot ++ p.1, p.2)
    | _ => Option.none
  | _ => Option.none

/-- Greedy repetition of time groups. -/
def pTimeGroups : Nat → List Char → List Char × List Char
  | 0, cs => ([], cs)
  | n + 1, cs =>
    match pTimeGroup cs with
    | some (g, r) =>
      let p := pTimeGroups n r
      (g ++ p.1, p.2)
    | Option.none => ([], cs)

/-- Mirrors `t_TIMEDELTA` (parser.py lines 164-167): `(\d+:\d+\.?\d*)+`
lexes as a STRING of the matched text. -/
def ruleTIMEDELTA (cs : List Char) : Option (Token × List Char) :=
  let p := pTimeGroups (cs.length + 1) cs
  if p.1.isEmpty then Option.none
  else some (Token.STRING (String.mk p.1), p.2)

/-- Mirrors `t_HEXNUMBER` (parser.py lines 170-173): `0x[0-9a-fA-F]+`. -/
def ruleHEX (cs : List Char) : Option (Token × List Char) :=
  match cs with
  | '0' :: 'x' :: r =>
    let p := r.span isHexc
    if p.1.isEmpty then Option.none
    else some (Token.HEXNUMBER (baseVal 16 p.1), p.2)
  | _ => Option.none

/-- Mirrors `t_OCTNUMBER` (parser.py lines 176-179): `0o[0-7]+`. -/
def ruleOCT (cs : List Char) : Option (Token × List Char) :=
  match cs with
  | '0' :: 'o' :: r =>
    let p := r.span (fun c => ('0' ≤ c) && (c ≤ '7'))
    if p.1.isEmpty then Option.none
    else some (Token.OCTNUMBER (baseVal 8 p.1), p.2)
  | _ => Option.none

/-- Mirrors `t_BINNUMBER` (parser.py lines 182-185): `0b[01]+`. -/
def ruleBIN (cs : List Char) : Option (Token × List Char) :=
  match cs with
  | '0' :: 'b' :: r =>
    let p := r.span (fun c => c = '0' ∨ c = '1')
    if p.1.isEmpty then Option.none
    else some (Token.BINNUMBER (baseVal 2 p.1), p.2)
  | _ => Option.none

/-- Mirrors `t_NUMBER` (parser.py lines 188-191): `\d+`. -/
def ruleNUMBER (cs : List Char) : Option (Token × List Char) :=
  match pDigits1 cs with
  | some (ds, rest) => some (Token.NUMBER (digitsVal ds), rest)
  | Option.none => Option.none

/-- Scan of a double-quoted string body (`t_STRING`, parser.py lines
194-197): non-greedy up to the first unescaped quote; escape sequences are
kept verbatim in the value (the source strips only the quotes); a raw or
escaped newline fails the rule. -/
def scanStr : List Char → Option (List Char × List Char)
  | [] => Option.none
  | '"' :: r => some ([], r)
  | '\n' :: _ => Option.none
  | '\\' :: c :: r =>
    if c = '\n' then Option.none
    else
      match scanStr r with
      | some (s, r') => some ('\\' :: c :: s, r')
      | Option.none => Option.none
  | c :: r =>
    match scanStr r with
    | some (s, r') => some (c :: s, r')
    | Option.none => Option.none

/-- Mirrors `t_STRING` (parser.py lines 194-197). -/
def ruleSTRING (cs : List Char) : Option (Token × List Char) :=
  match cs with
  | '"' :: r =>
    match scanStr r with
    | some (s, rest) => some (Token.STRING (String.mk s), rest)
    | Option.none => Option.none
  | _ => Option.none

/-- The `reserved` keyword map (parser.py lines 84-100), applied by
`t_ATOM`; `true`/`false`/`none` carry their Python values. -/
def reservedTok (s : String) : Option Token :=
  if s = ("if" : String) then some Token.IF
  else if s = ("else" : String) then some Token.ELSE
  else if s = ("for" : String) then some Token.FOR
  else if s = ("while" : String) then some Token.WHILE
  else if s = ("in" : String) then some Token.IN
  else if s = ("function" : String) then some Token.FUNCTION
  else if s = ("return" : String) then some Token.RETURN
  else if s = ("break" : String) then some Token.BREAK
  else if s = ("and" : String) then some Token.AND
  else if s = ("or" : String) then some Token.OR
  else if s = ("not" : String) then some Token.NOT
  else if s = ("undef" : String) then some Token.UNDEF
  else if s = ("true" : String) then some Token.TRUE
  else if s = ("false" : String) then some Token.FALSE
  else if s = ("none" : String) then some Token.NULL
  else Option.none

/-- Mirrors `t_ATOM` (parser.py lines 200-209). -/
def ruleATOM (cs : List Char) : Option (Token × List Char) :=
  match cs with
  | c :: _ =>
    if isAtomStart c then
      let p := cs.span isAtomChar
      let text := String.mk p.1
      some ((reservedTok text).getD (Token.ATOM text), p.2)
    else Option.none
  | [] => Option.none

/-- Python `\s` whitespace class. -/
def isPySpace (c : Char) : Bool :=
  c = ' ' || c = '\t' || c = '\n' || c = '\r' || c = '\x0b' || c = '\x0c'

/-- Mirrors `t_ESCAPENL` (parser.py lines 253-256): `\\\s*[\n\#]` is
consumed silently (logical line continuation). -/
def ruleESCAPENL (cs : List Char) : Option (List Char) :=
  match cs with
  | '\\' :: r =>
    let p := r.span isPySpace
    match p.2 with
    | '\n' :: rest => some rest
    | '#' :: rest => some rest
    | _ =>
      -- `\s*` is greedy and `\n` is itself whitespace: the regex can stop the
      -- `\s*` run just before a newline it contains.
      if p.1.contains '\n' then
        some ((p.1.dropWhile (fun c => c ≠ '\n')).drop 1 ++ p.2)
      else Option.none
  | _ => Option.none

/-- Mirrors `t_NEWLINE` (parser.py lines 271-274): `[\n;]+` collapses into
one statement separator. -/
def ruleNEWLINE (cs : List Char) : Option (Token × List Char) :=
  let p := cs.span (fun c => c = '\n' ∨ c = ';')
  if p.1.isEmpty then Option.none else some (Token.NEWLINE, p.2)

/-- The single-character brace rules `t_LBRACE`/`t_RBRACE` (parser.py lines
259-268); the interactive brace-depth continuation of `t_eof` is not
modelled (the model lexes complete inputs). -/
def ruleBRACE (cs : List Char) : Option (Token × List Char) :=
  match cs with
  | c :: r =>
    if c = lbraceChar then some (Token.LBRACE, r)
    else if c = rbraceChar then some (Token.RBRACE, r)
    else Option.none
  | [] => Option.none

/-- The string-pattern token rules (parser.py lines 213-238) in the order
ply applies them: sorted by decreasing regex length, ties kept in
definition order. -/
def opRules : List (List Char × Token) :=
  [(['$', '('], Token.EOPEN),
   (['$', lbraceChar], Token.COPEN),
   (['.', '.'], Token.UP),
   (['=', '+'], Token.INC),
   (['!', '='], Token.NE),
   (['['], Token.LBRACKET),
   ([']'], Token.RBRACKET),
   (['|'], Token.PIPE),
   (['('], Token.LPAREN),
   ([')'], Token.RPAREN),
   (['=', '-'], Token.DEC),
   (['=', '='], Token.EQ),
   (['>', '='], Token.GE),
   (['<', '='], Token.LE),
   (['+'], Token.PLUS),
   (['*'], Token.MUL),
   (['/'], Token.DIV),
   (['~', '='], Token.REGEX),
   ([','], Token.COMMA),
   (['?'], Token.LIST),
   (['>', '>'], Token.REDIRECT),
   (['='], Token.ASSIGN),
   (['>'], Token.GT),
   (['<'], Token.LT),
   (['-'], Token.MINUS),
   ([':'], Token.COLON)]

/-- First string-pattern rule matching a prefix of the input. -/
def ruleOps (cs : List Char) : Option (Token × List Char) :=
  (opRules.filterMap fun r =>
    if r.1.isPrefixOf cs then some (r.2, cs.drop r.1.length) else Option.none).head?

/-- One lexing step at the current position: the function rules in their
definition order (parser.py: COMMENT, IPV4, IPV6, SIZE, TIMEDELTA,
HEXNUMBER, OCTNUMBER, BINNUMBER, NUMBER, STRING, ATOM, ESCAPENL, LBRACE,
RBRACE, NEWLINE), then the string-pattern rules.  Returns the produced
token (or `none` for a discarding rule) and the rest of the input. -/
def lexStep (cs : List Char) : Option (Option Token × List Char) :=
  match ruleCOMMENT cs with
  | some rest => some (Option.none, rest)
  | Option.none =>
  match ruleIPV4 cs with
  | some (t, rest) => some (some t, rest)
  | Option.none =>
  match ruleIPV6 cs with
  | some (t, rest) => some (some t, rest)
  | Option.none =>
  match ruleSIZE cs with
  | some (t, rest) => some (some t, rest)
  | Option.none =>
  match ruleTIMEDELTA cs with
  | some (t, rest) => some (some t, rest)
  | Option.none =>
  match ruleHEX cs with
  | some (t, rest) => some (some t, rest)
  | Option.none =>
  match ruleOCT cs with
  | some (t, rest) => some (some t, rest)
  | Option.none =>
  match ruleBIN cs with
  | some (t, rest) => some (some t, rest)
  | Option.none =>
  match ruleNUMBER cs with
  | some (t, rest) => some (some t, rest)
  | Option.none =>
  match ruleSTRING cs with
  | some (t, rest) => some (some t, rest)
  | Option.none =>
  match ruleATOM cs with
  | some (t, rest) => some (some t, rest)
  | Option.none =>
  match ruleESCAPENL cs with
  | some rest => some (Option.none, rest)
  | Option.none =>
  match ruleBRACE cs with
  | some (t, rest) => some (some t, rest)
  | Option.none =>
  match ruleNEWLINE cs with
  | some (t, rest) => some (some t, rest)
  | Option.none =>
  match ruleOps cs with
  | some (t, rest) => some (some t, rest)
  | Option.none => Option.none

/-- The lexing loop: `t_ignore = ' \t'` characters are skipped, a rule
match advances, anything else raises the non-recovering lexical error of
`t_error` (parser.py lines 277-282).  The fuel is an upper bound on the
number of steps (each consumes at least one character). -/
def tokenizeGo : Nat → List Char → Except Err (List Token)
  | 0, _ => .error Err.fuel
  | _, [] => .ok []
  | n + 1, c :: cs =>
    if c = ' ' ∨ c = '\t' then tokenizeGo n cs
    else
      match lexStep (c :: cs) with
      | some (some t, rest) =>
        match tokenizeGo n rest with
        | .ok ts => .ok (t :: ts)
        | .error e => .error e
      | some (Option.none, rest) => tokenizeGo n rest
      | Option.none =>
        .error (Err.syntaxErr ("Illegal character \x27" ++ String.mk [c] ++ "\x27"))

/-- Lexing of a complete input string. -/
def tokenize (s : String) : Except Err (List Token) :=
  tokenizeGo (s.length + 1) s.toList

end FreenasCli

namespace FreenasCli

/-- Rendering of a token for the `p_error` message (source positions are
elided from the embedding). -/
def tokText : Token → String
  | .ATOM s => s
  | .NUMBER n => toString n
  | .HEXNUMBER n => toString n
  | .OCTNUMBER n => toString n
  | .BINNUMBER n => toString n
  | .STRING s => s
  | .TRUE => "true"
  | .FALSE => "false"
  | .NULL => "none"
  | .IF => "if"
  | .ELSE => "else"
  | .FOR => "for"
  | .WHILE => "while"
  | .IN => "in"
  | .FUNCTION => "function"
  | .RETURN => "return"
  | .BREAK => "break"
  | .AND => "and"
  | .OR => "or"
  | .NOT => "not"
  | .UNDEF => "undef"
  | .ASSIGN => "="
  | .LPAREN => "("
  | .RPAREN => ")"
  | .EQ => "=="
  | .NE => "!="
  | .GT => ">"
  | .GE => ">="
  | .LT => "<"
  | .LE => "<="
  | .REGEX => "~="
  | .UP => ".."
  | .PIPE => "|"
  | .LIST => "?"
  | .COMMA => ","
  | .INC => "=+"
  | .DEC => "=-"
  | .PLUS => "+"
  | .MINUS => "-"
  | .MUL => "*"
  | .DIV => "/"
  | .EOPEN => "$("
  | .COPEN => "$" ++ String.mk [lbraceChar]
  | .LBRACE => String.mk [lbraceChar]
  | .RBRACE => String.mk [rbraceChar]
  | .LBRACKET => "["
  | .RBRACKET => "]"
  | .NEWLINE => "\n"
  | .COLON => ":"
  | .REDIRECT => ">>"

/-- The non-recovering `p_error` SyntaxError (parser.py lines 823-827);
line/column positions are elided from the embedding. -/
def invalidTok (t : Token) : Err :=
  Err.syntaxErr ("Invalid token \x27" ++ tokText t ++ "\x27")

/-- The binary operators of `p_binary_expr` (parser.py lines 649-666) with
their precedence levels from the `precedence` table (parser.py lines
240-250), numbered lowest (1) to highest, and their associativity (`NOT` is
declared right-associative, everything else left). -/
def binOpInfo : Token → Option (String × Nat × Bool)
  | .PLUS => some (("+" : String), 1, false)
  | .MINUS => some (("-" : String), 1, false)
  | .MUL => some (("*" : String), 2, false)
  | .DIV => some (("/" : String), 2, false)
  | .AND => some (("and" : String), 3, false)
  | .OR => some (("or" : String), 3, false)
  | .NOT => some (("not" : String), 4, true)
  | .REGEX => some (("~=" : String), 5, false)
  | .GT => some ((">" : String), 6, false)
  | .LT => some (("<" : String), 6, false)
  | .GE => some ((">=" : String), 7, false)
  | .LE => some (("<=" : String), 7, false)
  | .EQ => some (("==" : String), 8, false)
  | .NE => some (("!=" : String), 8, false)
  | _ => Option.none

/-- The operator tokens of `p_binary_parameter` (parser.py lines 797-810)
with the operator text stored in the node. -/
def paramOpTok : Token → Option String
  | .ASSIGN => some ("=")
  | .EQ => some ("==")
  | .NE => some ("!=")
  | .GT => some (">")
  | .GE => some (">=")
  | .LT => some ("<")
  | .LE => some ("<=")
  | .REGEX => some ("~=")
  | .INC => some ("=+")
  | .DEC => some ("=-")
  | _ => Option.none

/-- Whether a token can start an `expr` production. -/
def startsExpr (t : Token) : Bool :=
  match t with
  | .NUMBER _ => true
  | .HEXNUMBER _ => true
  | .OCTNUMBER _ => true
  | .BINNUMBER _ => true
  | .STRING _ => true
  | .TRUE => true
  | .FALSE => true
  | .NULL => true
  | .ATOM _ => true
  | .LBRACKET => true
  | .LBRACE => true
  | .LPAREN => true
  | .COPEN => true
  | .EOPEN => true
  | .FUNCTION => true
  | .MINUS => true
  | .NOT => true
  | _ => false

/-- Whether a token can start a `parameter` production (`p_unary_parameter`
plus the leading ATOM of `p_binary_parameter`). -/
def startsParam (t : Token) : Bool :=
  match t with
  | .ATOM _ => true
  | .NUMBER _ => true
  | .HEXNUMBER _ => true
  | .OCTNUMBER _ => true
  | .BINNUMBER _ => true
  | .STRING _ => true
  | .TRUE => true
  | .FALSE => true
  | .NULL => true
  | .LBRACKET => true
  | .LBRACE => true
  | .COPEN => true
  | .LIST => true
  | .UP => true
  | .DIV => true
  | _ => false

/-- Whether a token can start a `command_item` production (parser.py lines
693-721). -/
def startsCommandItem (t : Token) : Bool :=
  match t with
  | .LIST => true
  | .NUMBER _ => true
  | .DIV => true
  | .UP => true
  | .ATOM _ => true
  | .COPEN => true
  | .STRING _ => true
  | _ => false

set_option maxHeartbeats 2000000

mutual

/-- The `stmt_list` productions (parser.py lines 295-312): leading
statement separators are skipped; statements are separated by NEWLINE
tokens; in a block context the list stops in front of the closing brace. -/
def parseStmtList : Nat → List Token → Except Err (List Ast × List Token)
  | 0, _ => .error Err.fuel
  | fuel + 1, toks =>
    match toks with
    | Token.NEWLINE :: rest => parseStmtList fuel rest
    | _ =>
      match parseStmtRedirect fuel toks with
      | .error e => .error e
      | .ok (s, rest) =>
        match rest with
        | [] => .ok ([s], [])
        | Token.RBRACE :: _ => .ok ([s], rest)
        | Token.NEWLINE :: r2 =>
          match r2 with
          | [] => .ok ([s], [])
          | Token.RBRACE :: _ => .ok ([s], r2)
          | _ =>
            match parseStmtList fuel r2 with
            | .error e => .error e
            | .ok (ss, r3) => .ok (s :: ss, r3)
        | t :: _ => .error (invalidTok t)

/-- The `stmt_redirect` productions (parser.py lines 315-327): an optional
trailing `>> target` wraps the statement in a `Redirection`. -/
def parseStmtRedirect (fuel0 : Nat) (toks : List Token) : Except Err (Ast × List Token) :=
  match fuel0 with
  | 0 => .error Err.fuel
  | fuel + 1 =>
    match parseStmt fuel toks with
    | .error e => .error e
    | .ok (s, rest) =>
      match rest with
      | Token.REDIRECT :: Token.ATOM a :: r2 => .ok (Ast.redirection s a, r2)
      | Token.REDIRECT :: Token.STRING a :: r2 => .ok (Ast.redirection s a, r2)
      | Token.REDIRECT :: t :: _ => .error (invalidTok t)
      | Token.REDIRECT :: [] => .error (Err.syntaxErr ("Parse error"))
      | _ => .ok (s, rest)

/-- The `stmt` productions (parser.py lines 330-343), dispatched on the
leading token; an `ATOM` is disambiguated by lookahead between assignment,
subscript assignment, function call and command, as the LALR automaton
does. -/
def parseStmt (fuel0 : Nat) (toks : List Token) : Except Err (Ast × List Token) :=
  match fuel0 with
  | 0 => .error Err.fuel
  | fuel + 1 =>
    match toks with
    | Token.IF :: rest => parseIf fuel rest
    | Token.FOR :: rest => parseFor fuel rest
    | Token.WHILE :: rest => parseWhile fuel rest
    | Token.FUNCTION :: rest => parseFnDef fuel rest
    | Token.RETURN :: rest =>
      match rest with
      | t :: _ =>
        if startsExpr t then
          match parseExprLvl fuel 1 rest with
          | .error e => .error e
          | .ok (e, r2) => .ok (Ast.returnStatement e, r2)
        else .ok (Ast.returnStatement Ast.litNone, rest)
      | [] => .ok (Ast.returnStatement Ast.litNone, [])
    | Token.BREAK :: rest => .ok (Ast.breakStatement, rest)
    | Token.UNDEF :: Token.ATOM a :: rest => .ok (Ast.undefStatement a, rest)
    | Token.UNDEF :: t :: _ => .error (invalidTok t)
    | Token.UNDEF :: [] => .error (Err.syntaxErr ("Parse error"))
    | Token.ATOM a :: Token.ASSIGN :: rest =>
      match parseExprLvl fuel 1 rest with
      | .error e => .error e
      | .ok (e, r2) => .ok (Ast.assignName a e, r2)
    | Token.ATOM a :: Token.LBRACKET :: rest =>
      -- subscript_left ASSIGN expr, else fall back to a command with an
      -- array parameter (the LALR automaton separates these by the ASSIGN
      -- lookahead after the bracket groups)
      match parseSubLeft fuel (Ast.symbol a) (Token.LBRACKET :: rest) with
      | .ok (target, Token.ASSIGN :: r2) =>
        match parseExprLvl fuel 1 r2 with
        | .error e => .error e
        | .ok (e, r3) => .ok (Ast.assignSubscript target e, r3)
      | _ => parseCommand fuel toks
    | Token.ATOM a :: Token.LPAREN :: rest => parseCall fuel a rest
    | t :: _ =>
      if startsCommandItem t then parseCommand fuel toks
      else .error (invalidTok t)
    | [] => .error (Err.syntaxErr ("Parse error"))

/-- The chain of `subscript_left` productions (parser.py lines 598-603). -/
def parseSubLeft (fuel0 : Nat) (base : Ast) (toks : List Token) :
    Except Err (Ast × List Token) :=
  match fuel0 with
  | 0 => .error Err.fuel
  | fuel + 1 =>
    match toks with
    | Token.LBRACKET :: rest =>
      match parseExprLvl fuel 1 rest with
      | .error e => .error e
      | .ok (i, Token.RBRACKET :: r2) => parseSubLeft fuel (Ast.subscript base i) r2
      | .ok (_, t :: _) => .error (invalidTok t)
      | .ok (_, []) => .error (Err.syntaxErr ("Parse error"))
    | _ => .ok (base, toks)

/-- The `if_stmt` productions (parser.py lines 368-373). -/
def parseIf (fuel0 : Nat) (toks : List Token) : Except Err (Ast × List Token) :=
  match fuel0 with
  | 0 => .error Err.fuel
  | fuel + 1 =>
    match toks with
    | Token.LPAREN :: rest =>
      match parseExprLvl fuel 1 rest with
      | .error e => .error e
      | .ok (cond, Token.RPAREN :: r2) =>
        match parseBlock fuel r2 with
        | .error e => .error e
        | .ok (body, r3) =>
          match r3 with
          | Token.ELSE :: r4 =>
            match parseBlock fuel r4 with
            | .error e => .error e
            | .ok (eb, r5) => .ok (Ast.ifStatement cond body eb, r5)
          | _ => .ok (Ast.ifStatement cond body [], r3)
      | .ok (_, t :: _) => .error (invalidTok t)
      | .ok (_, []) => .error (Err.syntaxErr ("Parse error"))
    | t :: _ => .error (invalidTok t)
    | [] => .error (Err.syntaxErr ("Parse error"))

/-- The `for_stmt` productions (parser.py lines 376-387), single- and
two-variable forms. -/
def parseFor (fuel0 : Nat) (toks : List Token) : Except Err (Ast × List Token) :=
  match fuel0 with
  | 0 => .error Err.fuel
  | fuel + 1 =>
    match toks with
    | Token.LPAREN :: Token.ATOM v :: Token.IN :: rest =>
      match parseExprLvl fuel 1 rest with
      | .error e => .error e
      | .ok (e, Token.RPAREN :: r2) =>
        match parseBlock fuel r2 with
        | .error e2 => .error e2
        | .ok (body, r3) => .ok (Ast.forStatement v e body, r3)
      | .ok (_, t :: _) => .error (invalidTok t)
      | .ok (_, []) => .error (Err.syntaxErr ("Parse error"))
    | Token.LPAREN :: Token.ATOM k :: Token.COMMA :: Token.ATOM v :: Token.IN :: rest =>
      match parseExprLvl fuel 1 rest with
      | .error e => .error e
      | .ok (e, Token.RPAREN :: r2) =>
        match parseBlock fuel r2 with
        | .error e2 => .error e2
        | .ok (body, r3) => .ok (Ast.forStatement2 k v e body, r3)
      | .ok (_, t :: _) => .error (invalidTok t)
      | .ok (_, []) => .error (Err.syntaxErr ("Parse error"))
    | t :: _ => .error (invalidTok t)
    | [] => .error (Err.syntaxErr ("Parse error"))

/-- The `while_stmt` production (parser.py lines 390-394). -/
def parseWhile (fuel0 : Nat) (toks : List Token) : Except Err (Ast × List Token) :=
  match fuel0 with
  | 0 => .error Err.fuel
  | fuel + 1 =>
    match toks with
    | Token.LPAREN :: rest =>
      match parseExprLvl fuel 1 rest with
      | .error e => .error e
      | .ok (cond, Token.RPAREN :: r2) =>
        match parseBlock fuel r2 with
        | .error e2 => .error e2
        | .ok (body, r3) => .ok (Ast.whileStatement cond body, r3)
      | .ok (_, t :: _) => .error (invalidTok t)
      | .ok (_, []) => .error (Err.syntaxErr ("Parse error"))
    | t :: _ => .error (invalidTok t)
    | [] => .error (Err.syntaxErr ("Parse error"))

/-- The named `function_definition_stmt` productions (parser.py lines
405-430): name, parenthesized parameter-name list, optional newline,
block. -/
def parseFnDef (fuel0 : Nat) (toks : List Token) : Except Err (Ast × List Token) :=
  match fuel0 with
  | 0 => .error Err.fuel
  | fuel + 1 =>
    match toks with
    | Token.ATOM name :: Token.LPAREN :: rest =>
      match parseFnTail fuel rest with
      | .error e => .error e
      | .ok ((params, body), r2) => .ok (Ast.functionDefinition name params body, r2)
    | t :: _ => .error (invalidTok t)
    | [] => .error (Err.syntaxErr ("Parse error"))

/-- The shared tail of function definitions and anonymous functions:
`[function_argument_list] RPAREN [NEWLINE] block`. -/
def parseFnTail (fuel0 : Nat) (toks : List Token) :
    Except Err ((List String × List Ast) × List Token) :=
  match fuel0 with
  | 0 => .error Err.fuel
  | fuel + 1 =>
    let argsRes : Except Err (List String × List Token) :=
      match toks with
      | Token.RPAREN :: rest => .ok ([], rest)
      | _ =>
        match parseArgNames fuel toks with
        | .error e => .error e
        | .ok (ns, Token.RPAREN :: rest) => .ok (ns, rest)
        | .ok (_, t :: _) => .error (invalidTok t)
        | .ok (_, []) => .error (Err.syntaxErr ("Parse error"))
    match argsRes with
    | .error e => .error e
    | .ok (ns, rest) =>
      let rest2 := match rest with
        | Token.NEWLINE :: r => r
        | r => r
      match parseBlock fuel rest2 with
      | .error e => .error e
      | .ok (body, r3) => .ok ((ns, body), r3)

/-- The `function_argument_list` productions (parser.py lines 433-442). -/
def parseArgNames (fuel0 : Nat) (toks : List Token) :
    Except Err (List String × List Token) :=
  match fuel0 with
  | 0 => .error Err.fuel
  | fuel + 1 =>
    match toks with
    | Token.ATOM a :: Token.COMMA :: rest =>
      match parseArgNames fuel rest with
      | .error e => .error e
      | .ok (ns, r2) => .ok (a :: ns, r2)
    | Token.ATOM a :: rest => .ok ([a], rest)
    | t :: _ => .error (invalidTok t)
    | [] => .error (Err.syntaxErr ("Parse error"))

/-- The `block` productions (parser.py lines 346-365). -/
def parseBlock (fuel0 : Nat) (toks : List Token) : Except Err (List Ast × List Token) :=
  match fuel0 with
  | 0 => .error Err.fuel
  | fuel + 1 =>
    match toks with
    | Token.LBRACE :: Token.RBRACE :: rest => .ok ([], rest)
    | Token.LBRACE :: Token.NEWLINE :: Token.RBRACE :: rest => .ok ([], rest)
    | Token.LBRACE :: rest =>
      match parseStmtList fuel rest with
      | .error e => .error e
      | .ok (ss, Token.RBRACE :: r2) => .ok (ss, r2)
      | .ok (_, t :: _) => .error (invalidTok t)
      | .ok (_, []) => .error (Err.syntaxErr ("Parse error"))
    | t :: _ => .error (invalidTok t)
    | [] => .error (Err.syntaxErr ("Parse error"))

/-- Expression parsing by precedence climbing, implementing the shift/
reduce resolution yacc derives from the `precedence` table (parser.py lines
240-250) over the ambiguous `expr OP expr` productions: a left-associative
operator of precedence `p` takes a right operand parsed at minimum level
`p + 1`, the right-associative `NOT` at level `p`. -/
def parseExprLvl (fuel0 : Nat) (minPrec : Nat) (toks : List Token) :
    Except Err (Ast × List Token) :=
  match fuel0 with
  | 0 => .error Err.fuel
  | fuel + 1 =>
    match parsePrimary fuel toks with
    | .error e => .error e
    | .ok (lhs, rest) => parseBinRest fuel minPrec lhs rest

/-- The climbing loop over binary operators. -/
def parseBinRest (fuel0 : Nat) (minPrec : Nat) (lhs : Ast) (toks : List Token) :
    Except Err (Ast × List Token) :=
  match fuel0 with
  | 0 => .error Err.fuel
  | fuel + 1 =>
    match toks with
    | t :: rest =>
      match binOpInfo t with
      | some (opS, p, rightAssoc) =>
        if minPrec ≤ p then
          match parseExprLvl fuel (if rightAssoc then p else p + 1) rest with
          | .error e => .error e
          | .ok (rhs, r2) => parseBinRest fuel minPrec (Ast.binaryExpr lhs opS rhs) r2
        else .ok (lhs, toks)
      | Option.none => .ok (lhs, toks)
    | [] => .ok (lhs, [])

/-- Primary expressions: the non-`binary_expr` alternatives of `p_expr`
(parser.py lines 485-504) — literals, symbols, calls, array and dict
literals, parenthesized and `${...}`-wrapped expressions, `$(command)`
expansions (which yield the command node itself, `p_expr_expansion`),
anonymous functions and the unary operators — followed by any chain of
subscripts (`p_subscript_expr`). -/
def parsePrimary (fuel0 : Nat) (toks : List Token) : Except Err (Ast × List Token) :=
  match fuel0 with
  | 0 => .error Err.fuel
  | fuel + 1 =>
    let base : Except Err (Ast × List Token) :=
      match toks with
      | Token.NUMBER n :: rest => .ok (Ast.litInt n, rest)
      | Token.HEXNUMBER n :: rest => .ok (Ast.litInt n, rest)
      | Token.OCTNUMBER n :: rest => .ok (Ast.litInt n, rest)
      | Token.BINNUMBER n :: rest => .ok (Ast.litInt n, rest)
      | Token.STRING s :: rest => .ok (Ast.litStr s, rest)
      | Token.TRUE :: rest => .ok (Ast.litBool true, rest)
      | Token.FALSE :: rest => .ok (Ast.litBool false, rest)
      | Token.NULL :: rest => .ok (Ast.litNone, rest)
      | Token.ATOM a :: Token.LPAREN :: rest => parseCall fuel a rest
      | Token.ATOM a :: rest => .ok (Ast.symbol a, rest)
      | Token.LBRACKET :: Token.RBRACKET :: rest => .ok (Ast.litList [], rest)
      | Token.LBRACKET :: rest =>
        match parseExprList fuel rest with
        | .error e => .error e
        | .ok (es, Token.RBRACKET :: r2) => .ok (Ast.litList es, r2)
        | .ok (_, t :: _) => .error (invalidTok t)
        | .ok (_, []) => .error (Err.syntaxErr ("Parse error"))
      | Token.LBRACE :: rest => parseDictLit fuel rest
      | Token.LPAREN :: rest =>
        match parseExprLvl fuel 1 rest with
        | .error e => .error e
        | .ok (e, Token.RPAREN :: r2) => .ok (e, r2)
        | .ok (_, t :: _) => .error (invalidTok t)
        | .ok (_, []) => .error (Err.syntaxErr ("Parse error"))
      | Token.COPEN :: rest =>
        match parseExprLvl fuel 1 rest with
        | .error e => .error e
        | .ok (e, Token.RBRACE :: r2) => .ok (e, r2)
        | .ok (_, t :: _) => .error (invalidTok t)
        | .ok (_, []) => .error (Err.syntaxErr ("Parse error"))
      | Token.EOPEN :: rest =>
        match parseCommand fuel rest with
        | .error e => .error e
        | .ok (c, Token.RPAREN :: r2) => .ok (c, r2)
        | .ok (_, t :: _) => .error (invalidTok t)
        | .ok (_, []) => .error (Err.syntaxErr ("Parse error"))
      | Token.FUNCTION :: Token.LPAREN :: rest =>
        match parseFnTail fuel rest with
        | .error e => .error e
        | .ok ((params, body), r2) => .ok (Ast.anonymousFunction params body, r2)
      | Token.MINUS :: rest =>
        match parseExprLvl fuel 2 rest with
        | .error e => .error e
        | .ok (e, r2) => .ok (Ast.unaryExpr e ("-"), r2)
      | Token.NOT :: rest =>
        match parseExprLvl fuel 4 rest with
        | .error e => .error e
        | .ok (e, r2) => .ok (Ast.unaryExpr e ("not"), r2)
      | t :: _ => .error (invalidTok t)
      | [] => .error (Err.syntaxErr ("Parse error"))
    match base with
    | .error e => .error e
    | .ok (b, rest) => parsePostfix fuel b rest

/-- Postfix subscript chains (`p_subscript_expr`, parser.py lines
606-610). -/
def parsePostfix (fuel0 : Nat) (base : Ast) (toks : List Token) :
    Except Err (Ast × List Token) :=
  match fuel0 with
  | 0 => .error Err.fuel
  | fuel + 1 =>
    match toks with
    | Token.LBRACKET :: rest =>
      match parseExprLvl fuel 1 rest with
      | .error e => .error e
      | .ok (i, Token.RBRACKET :: r2) => parsePostfix fuel (Ast.subscript base i) r2
      | .ok (_, t :: _) => .error (invalidTok t)
      | .ok (_, []) => .error (Err.syntaxErr ("Parse error"))
    | _ => .ok (base, toks)

/-- The `call` productions (parser.py lines 590-595), entered after `ATOM
LPAREN`. -/
def parseCall (fuel0 : Nat) (name : String) (toks : List Token) :
    Except Err (Ast × List Token) :=
  match fuel0 with
  | 0 => .error Err.fuel
  | fuel + 1 =>
    match toks with
    | Token.RPAREN :: rest => .ok (Ast.functionCall name [], rest)
    | _ =>
      match parseExprList fuel toks with
      | .error e => .error e
      | .ok (es, Token.RPAREN :: r2) => .ok (Ast.functionCall name es, r2)
      | .ok (_, t :: _) => .error (invalidTok t)
      | .ok (_, []) => .error (Err.syntaxErr ("Parse error"))

/-- The `expr_list` productions (parser.py lines 473-482). -/
def parseExprList (fuel0 : Nat) (toks : List Token) :
    Except Err (List Ast × List Token) :=
  match fuel0 with
  | 0 => .error Err.fuel
  | fuel + 1 =>
    match parseExprLvl fuel 1 toks with
    | .error e => .error e
    | .ok (e, Token.COMMA :: rest) =>
      match parseExprList fuel rest with
      | .error e2 => .error e2
      | .ok (es, r2) => .ok (e :: es, r2)
    | .ok (e, rest) => .ok ([e], rest)

/-- The `dict_literal` and `dict_pair` productions (parser.py lines
526-565), entered after the opening brace.  A pair of the
`NEWLINE STRING COLON expr` form stores its raw string key; it is modelled
as a string-literal key (no claim evaluates dict literals). -/
def parseDictLit (fuel0 : Nat) (toks : List Token) : Except Err (Ast × List Token) :=
  match fuel0 with
  | 0 => .error Err.fuel
  | fuel + 1 =>
    match toks with
    | Token.RBRACE :: rest => .ok (Ast.litDict [], rest)
    | Token.NEWLINE :: Token.RBRACE :: rest => .ok (Ast.litDict [], rest)
    | _ =>
      match parseDictPairs fuel toks with
      | .error e => .error e
      | .ok (ps, Token.RBRACE :: r2) => .ok (Ast.litDict ps, r2)
      | .ok (_, t :: _) => .error (invalidTok t)
      | .ok (_, []) => .error (Err.syntaxErr ("Parse error"))

/-- The `dict_pair_list` productions (parser.py lines 541-550). -/
def parseDictPairs (fuel0 : Nat) (toks : List Token) :
    Except Err (List (Ast × Ast) × List Token) :=
  match fuel0 with
  | 0 => .error Err.fuel
  | fuel + 1 =>
    let pairRes : Except Err ((Ast × Ast) × List Token) :=
      match toks with
      | Token.NEWLINE :: Token.STRING s :: Token.COLON :: rest =>
        match parseExprLvl fuel 1 rest with
        | .error e => .error e
        | .ok (v, r2) =>
          let r3 := match r2 with
            | Token.NEWLINE :: Token.RBRACE :: _ => match r2 with
              | _ :: rr => rr
              | [] => r2
            | _ => r2
          .ok ((Ast.litStr s, v), r3)
      | _ =>
        match parseExprLvl fuel 1 toks with
        | .error e => .error e
        | .ok (k, Token.COLON :: rest) =>
          match parseExprLvl fuel 1 rest with
          | .error e => .error e
          | .ok (v, r2) => .ok ((k, v), r2)
        | .ok (_, t :: _) => .error (invalidTok t)
        | .ok (_, []) => .error (Err.syntaxErr ("Parse error"))
    match pairRes with
    | .error e => .error e
    | .ok (p, rest) =>
      match rest with
      | Token.COMMA :: r2 =>
        match parseDictPairs fuel r2 with
        | .error e => .error e
        | .ok (ps, r3) => .ok (p :: ps, r3)
      | _ => .ok ([p], rest)

/-- The `command` productions (parser.py lines 669-690): one command item,
an optional parameter list, and an optional `| command` continuation built
as a right-nested `PipeExpr`. -/
def parseCommand (fuel0 : Nat) (toks : List Token) : Except Err (Ast × List Token) :=
  match fuel0 with
  | 0 => .error Err.fuel
  | fuel + 1 =>
    match parseCommandItem fuel toks with
    | .error e => .error e
    | .ok (item, rest) =>
      match parseParams fuel rest with
      | .error e => .error e
      | .ok (ps, r2) =>
        match r2 with
        | Token.PIPE :: r3 =>
          match parseCommand fuel r3 with
          | .error e => .error e
          | .ok (right, r4) => .ok (Ast.pipeExpr (Ast.commandCall (item :: ps)) right, r4)
        | _ => .ok (Ast.commandCall (item :: ps), r2)

/-- The `command_item` productions (parser.py lines 693-721): `?` and
numbers become `Symbol`s of their token value, `/` and `..` stay raw
strings, atoms become symbols, `${expr}` becomes an expression expansion,
and a quoted string becomes a literal. -/
def parseCommandItem (fuel0 : Nat) (toks : List Token) : Except Err (Ast × List Token) :=
  match fuel0 with
  | 0 => .error Err.fuel
  | fuel + 1 =>
    match toks with
    | Token.LIST :: rest => .ok (Ast.symbol ("?"), rest)
    | Token.NUMBER n :: rest => .ok (Ast.symbolNum n, rest)
    | Token.DIV :: rest => .ok (Ast.word ("/"), rest)
    | Token.UP :: rest => .ok (Ast.word (".."), rest)
    | Token.ATOM a :: rest => .ok (Ast.symbol a, rest)
    | Token.COPEN :: rest =>
      match parseExprLvl fuel 1 rest with
      | .error e => .error e
      | .ok (e, Token.RBRACE :: r2) => .ok (Ast.exprExpansion e, r2)
      | .ok (_, t :: _) => .error (invalidTok t)
      | .ok (_, []) => .error (Err.syntaxErr ("Parse error"))
    | Token.STRING s :: rest => .ok (Ast.litStr s, rest)
    | t :: _ => .error (invalidTok t)
    | [] => .error (Err.syntaxErr ("Parse error"))

/-- The `parameter_list` productions (parser.py lines 724-733): parameters
while a token can start one. -/
def parseParams (fuel0 : Nat) (toks : List Token) :
    Except Err (List Ast × List Token) :=
  match fuel0 with
  | 0 => .error Err.fuel
  | fuel + 1 =>
    match toks with
    | t :: _ =>
      if startsParam t then
        match parseParameter fuel toks with
        | .error e => .error e
        | .ok (p, rest) =>
          match parseParams fuel rest with
          | .error e => .error e
          | .ok (ps, r2) => .ok (p :: ps, r2)
      else .ok ([], toks)
    | [] => .ok ([], [])

/-- The `parameter` productions (parser.py lines 736-748): a binary
parameter `ATOM OP parameter`, else a set parameter (comma-joined unary
parameters). -/
def parseParameter (fuel0 : Nat) (toks : List Token) : Except Err (Ast × List Token) :=
  match fuel0 with
  | 0 => .error Err.fuel
  | fuel + 1 =>
    match toks with
    | Token.ATOM a :: t :: rest =>
      match paramOpTok t with
      | some opS =>
        match parseParameter fuel rest with
        | .error e => .error e
        | .ok (r, r2) => .ok (Ast.binaryParameter a opS r, r2)
      | Option.none => parseSetParam fuel toks
    | _ => parseSetParam fuel toks

/-- The `set_parameter` productions (parser.py lines 751-764): a single
unary parameter, or a comma-joined Python list of them. -/
def parseSetParam (fuel0 : Nat) (toks : List Token) : Except Err (Ast × List Token) :=
  match fuel0 with
  | 0 => .error Err.fuel
  | fuel + 1 =>
    match parseUnaryParam fuel toks with
    | .error e => .error e
    | .ok (u, Token.COMMA :: rest) =>
      match parseSetParam fuel rest with
      | .error e => .error e
      | .ok (Ast.astList us, r2) => .ok (Ast.astList (u :: us), r2)
      | .ok (u2, r2) => .ok (Ast.astList [u, u2], r2)
    | .ok (u, rest) => .ok (u, rest)

/-- The `unary_parameter` productions (parser.py lines 767-794). -/
def parseUnaryParam (fuel0 : Nat) (toks : List Token) : Except Err (Ast × List Token) :=
  match fuel0 with
  | 0 => .error Err.fuel
  | fuel + 1 =>
    match toks with
    | Token.ATOM a :: rest => .ok (Ast.symbol a, rest)
    | Token.NUMBER n :: rest => .ok (Ast.litInt n, rest)
    | Token.HEXNUMBER n :: rest => .ok (Ast.litInt n, rest)
    | Token.OCTNUMBER n :: rest => .ok (Ast.litInt n, rest)
    | Token.BINNUMBER n :: rest => .ok (Ast.litInt n, rest)
    | Token.STRING s :: rest => .ok (Ast.litStr s, rest)
    | Token.TRUE :: rest => .ok (Ast.litBool true, rest)
    | Token.FALSE :: rest => .ok (Ast.litBool false, rest)
    | Token.NULL :: rest => .ok (Ast.litNone, rest)
    | Token.LBRACKET :: Token.RBRACKET :: rest => .ok (Ast.litList [], rest)
    | Token.LBRACKET :: rest =>
      match parseExprList fuel rest with
      | .error e => .error e
      | .ok (es, Token.RBRACKET :: r2) => .ok (Ast.litList es, r2)
      | .ok (_, t :: _) => .error (invalidTok t)
      | .ok (_, []) => .error (Err.syntaxErr ("Parse error"))
    | Token.LBRACE :: rest => parseDictLit fuel rest
    | Token.COPEN :: rest =>
      match parseExprLvl fuel 1 rest with
      | .error e => .error e
      | .ok (e, Token.RBRACE :: r2) => .ok (Ast.exprExpansion e, r2)
      | .ok (_, t :: _) => .error (invalidTok t)
      | .ok (_, []) => .error (Err.syntaxErr ("Parse error"))
    | Token.LIST :: rest => .ok (Ast.symbol ("?"), rest)
    | Token.UP :: rest => .ok (Ast.word (".."), rest)
    | Token.DIV :: rest => .ok (Ast.word ("/"), rest)
    | t :: _ => .error (invalidTok t)
    | [] => .error (Err.syntaxErr ("Parse error"))

end

/-- Mirrors `parse` (parser.py lines 834-839) in non-recovering mode: lex,
then parse a statement list covering the whole input; an empty token stream
raises the bare `p_error` SyntaxError. -/
def parse (s : String) : Except Err (List Ast) :=
  match tokenize s with
  | .error e => .error e
  | .ok [] => .error (Err.syntaxErr ("Parse error"))
  | .ok ts =>
    match parseStmtList (ts.length * 4 + 16) ts with
    | .error e => .error e
    | .ok (ss, []) => .ok ss
    | .ok (_, t :: _) => .error (invalidTok t)

end FreenasCli

namespace FreenasCli

/-- Indentation prefix of `unparse`'s `ind` helper. -/
def indentStr (n : Nat) : String := String.mk (List.replicate n '\t')

mutual

/-- Mirrors `unparse` (parser.py lines 842-943).  Recursive calls reproduce
the source's argument passing: block members keep the current render mode
at one more indent level, while every other nested call uses the defaults
(indent 0, multi-line mode).  Node kinds without an `isinstance` case
(`UnaryExpr`, `ExpressionExpansion`, `ReturnStatement`, `BreakStatement`,
`UndefStatement`, `AnonymousFunction`, `Redirection`, raw word strings)
fall through to the trailing `return ''`.  A `Symbol` whose name is not a
string is rendered by its value (the source would fail string
concatenation there; unreachable through the claims).  The fuel bounds the
recursion depth of the nested-inductive traversal; it is spent only on
nesting and `unparse` supplies more of it than any node a claim touches
can consume. -/
def unparseF : Nat → Ast → Nat → Bool → String
  | 0, _, _, _ => ""
  | fuel + 1, token, indent, oneliner =>
    let ind := fun (s : String) => if oneliner then s else indentStr indent ++ s
    match token with
    | .astList es => unparseLines fuel es indent oneliner
    | .comment t => if oneliner then "" else "# " ++ t
    | .litNone => "none"
    | .litStr s => "\"" ++ s ++ "\""
    | .litBool b => if b then "true" else "false"
    | .litInt n => toString n
    | .litList es => "[" ++ unparseJoin fuel (", ") es ++ "]"
    | .litDict ps => String.mk [lbraceChar] ++ unparsePairs fuel ps ++ String.mk [rbraceChar]
    | .binaryParameter l op r => ind (l ++ op ++ unparseF fuel r 0 false)
    | .symbol s => ind s
    | .symbolNum n => ind (toString n)
    | .symbolBool b => ind (if b then "True" else "False")
    | .symbolNone => ind ("None")
    | .commandCall args => ind (unparseJoin fuel (" ") args)
    | .pipeExpr l r => ind (unparseF fuel l 0 false ++ " | " ++ unparseF fuel r 0 false)
    | .functionCall n args => n ++ "(" ++ unparseJoin fuel (", ") args ++ ")"
    | .subscript e i =>
      ind (unparseF fuel e 0 false ++ "[" ++ unparseF fuel i 0 false ++ "]")
    | .assignName n e => ind (n ++ " = " ++ unparseF fuel e 0 false)
    | .assignSubscript t e =>
      ind (unparseF fuel t 0 false ++ " = " ++ unparseF fuel e 0 false)
    | .binaryExpr l op r =>
      ind (unparseF fuel l 0 false ++ " " ++ op ++ " " ++ unparseF fuel r 0 false)
    | .ifStatement c b _ =>
      ind ("if (" ++ unparseF fuel c 0 false ++ ") " ++ String.mk [lbraceChar]
        ++ unparseBlockS fuel b indent oneliner ++ String.mk [rbraceChar])
    | .forStatement v e b =>
      ind ("for (" ++ v ++ " in " ++ unparseF fuel e 0 false ++ ") "
        ++ String.mk [lbraceChar]
        ++ unparseBlockS fuel b indent oneliner ++ String.mk [rbraceChar])
    | .forStatement2 k v e b =>
      -- `token.var` is a Python pair here and formats with its repr
      ind ("for ((\x27" ++ k ++ "\x27, \x27" ++ v ++ "\x27) in "
        ++ unparseF fuel e 0 false ++ ") "
        ++ String.mk [lbraceChar] ++ unparseBlockS fuel b indent oneliner
        ++ String.mk [rbraceChar])
    | .whileStatement e b =>
      ind ("while (" ++ unparseF fuel e 0 false ++ ") " ++ String.mk [lbraceChar]
        ++ unparseBlockS fuel b indent oneliner ++ String.mk [rbraceChar])
    | .functionDefinition n args b =>
      ind ("function " ++ n ++ "(" ++ String.intercalate (", ") args ++ ") "
        ++ String.mk [lbraceChar] ++ unparseBlockS fuel b indent oneliner
        ++ String.mk [rbraceChar])
    | _ => ""
termination_by structural fuel t i o => fuel

/-- Join of nested nodes rendered with the default arguments. -/
def unparseJoin : Nat → String → List Ast → String
  | 0, _, _ => ""
  | _, _, [] => ""
  | fuel + 1, _, [a] => unparseF fuel a 0 false
  | fuel + 1, sep, a :: rest => unparseF fuel a 0 false ++ sep ++ unparseJoin fuel sep rest
termination_by structural fuel s l => fuel

/-- Dict pairs rendered as `k: v` with the default arguments. -/
def unparsePairs : Nat → List (Ast × Ast) → String
  | 0, _ => ""
  | _, [] => ""
  | fuel + 1, [(k, v)] => unparseF fuel k 0 false ++ ": " ++ unparseF fuel v 0 false
  | fuel + 1, (k, v) :: rest =>
    unparseF fuel k 0 false ++ ": " ++ unparseF fuel v 0 false ++ ", "
      ++ unparsePairs fuel rest
termination_by structural fuel l => fuel

/-- The `format_block` helper: semicolon-joined in one-line mode, newline
wrapped otherwise, members at one more indent level. -/
def unparseBlockS : Nat → List Ast → Nat → Bool → String
  | 0, _, _, _ => ""
  | fuel + 1, b, indent, oneliner =>
    if oneliner then unparseBlockJoin fuel b indent oneliner
    else "\n" ++ unparseBlockNl fuel b indent oneliner ++ "\n"
termination_by structural fuel b i o => fuel

/-- Semicolon join of block members. -/
def unparseBlockJoin : Nat → List Ast → Nat → Bool → String
  | 0, _, _, _ => ""
  | _, [], _, _ => ""
  | fuel + 1, [a], indent, oneliner => unparseF fuel a (indent + 1) oneliner
  | fuel + 1, a :: rest, indent, oneliner =>
    unparseF fuel a (indent + 1) oneliner ++ "; " ++ unparseBlockJoin fuel rest indent oneliner
termination_by structural fuel b i o => fuel

/-- Newline join of block members. -/
def unparseBlockNl : Nat → List Ast → Nat → Bool → String
  | 0, _, _, _ => ""
  | _, [], _, _ => ""
  | fuel + 1, [a], indent, oneliner => unparseF fuel a (indent + 1) oneliner
  | fuel + 1, a :: rest, indent, oneliner =>
    unparseF fuel a (indent + 1) oneliner ++ "\n" ++ unparseBlockNl fuel rest indent oneliner
termination_by structural fuel b i o => fuel

/-- The top `isinstance(token, list)` case: lines of default-rendered
members, each run through `ind`. -/
def unparseLines : Nat → List Ast → Nat → Bool → String
  | 0, _, _, _ => ""
  | _, [], _, _ => ""
  | fuel + 1, [a], indent, oneliner =>
    (if oneliner then unparseF fuel a 0 false else indentStr indent ++ unparseF fuel a 0 false)
  | fuel + 1, a :: rest, indent, oneliner =>
    (if oneliner then unparseF fuel a 0 false else indentStr indent ++ unparseF fuel a 0 false)
      ++ "\n" ++ unparseLines fuel rest indent oneliner
termination_by structural fuel b i o => fuel

end

/-- The unparser at a recursion budget larger than the depth of any AST a
claim manipulates. -/
def unparse (token : Ast) (indent : Nat) (oneliner : Bool) : String :=
  unparseF 1000 token indent oneliner

/-- Python `str` of the modelled exceptions, as interpolated into the error
reports of `MainLoop.process` (a `KeyError` renders with quotes around the
key; the fuel error stands for the host recursion-limit message). -/
def errText : Err → String
  | .syntaxErr m => m
  | .keyErr k => "\x27" ++ k ++ "\x27"
  | .typeErr m => m
  | .indexErr m => m
  | .attrErr m => m
  | .flow _ _ => "flow control instruction"
  | .systemExit => ""
  | .fuel => "maximum recursion depth exceeded"

/-- The per-statement evaluation loop of `MainLoop.process` (repl.py lines
1069-1088): each parsed statement is evaluated; `SystemExit` propagates;
any other exception is reported with `Error:`, the call-stack trail when
the stack holds more than the stdin entry, and the host trace when the
`debug` config variable is truthy — and stops the loop (the `return` of
line 1085); a truthy result is handed to `format_output`. -/
def processTokens (fuel : Nat) : List Ast → St → List OutEvent →
    St × List OutEvent × Option Err
  | [], st, out => (st, out, Option.none)
  | tok :: rest, st, out =>
    match evalTopF fuel tok st with
    | (st1, .error Err.systemExit) => (st1, out, some Err.systemExit)
    | (st1, .error e) =>
      let out1 := out ++ [OutEvent.msg ("Error: " ++ errText e)]
      let out2 :=
        if st1.callStack.length > 1 then
          out1 ++ [OutEvent.msg ("Call stack: ")]
            ++ st1.callStack.map (fun cse => OutEvent.msg ("  at " ++ cse.func))
        else out1
      let out3 :=
        if (match alookup st1.configVars ("debug") with
            | some v => v.truthy
            | Option.none => false) then
          out2 ++ [OutEvent.msg ("Python call stack: "), OutEvent.msg ("<host traceback>")]
        else out2
      (st1, out3, Option.none)
    | (st1, .ok v) =>
      if v.truthy then processTokens fuel rest st1 (out ++ [OutEvent.formatted v])
      else processTokens fuel rest st1 out

/-- Python `str.strip()` as used by `MainLoop.process`: leading and
trailing whitespace removed (structural, so proofs can evaluate it). -/
def pyStrip (s : String) : String :=
  String.mk (((s.data.dropWhile Char.isWhitespace).reverse.dropWhile
    Char.isWhitespace).reverse)

/-- Mirrors `MainLoop.process` (repl.py lines 1040-1106): empty lines are
ignored, a `!` prefix runs the shell builtin, a lone `/` returns to the
root, a `/` prefix arms `start_from_root` and strips the slash, `-` swaps
the path with the previous path; otherwise the line is parsed (a parse
error prints `Syntax error:` and is absorbed) and the statements are
evaluated by `processTokens`.  The returned `Option Err` is the exception
the driver lets escape (only the process-termination request). -/
def process (fuel : Nat) (line : String) (st : St) : St × List OutEvent × Option Err :=
  if line.length = 0 then (st, [], Option.none)
  else if line.take 1 = ("!" : String) then
    (st.logEv (Ev.shellRun (line.drop 1)), [], Option.none)
  else if line.take 1 = ("/" : String) ∧ pyStrip line = ("/" : String) then
    ({ st with prevPath := st.path, path := st.rootPath }, [], Option.none)
  else
    let p1 : St × String :=
      if line.take 1 = ("/" : String) then ({ st with startFromRoot := true }, line.drop 1)
      else (st, line)
    if p1.2 = ("-" : String) then
      ({ p1.1 with prevPath := p1.1.path, path := p1.1.prevPath }, [], Option.none)
    else
      match parse p1.2 with
      | .error (Err.syntaxErr m) =>
        (p1.1, [OutEvent.msg ("Syntax error: " ++ m)], Option.none)
      | .error e => (p1.1, [OutEvent.msg ("Error: " ++ errText e)], Option.none)
      | .ok [] => (p1.1, [], Option.none)
      | .ok toks => processTokens fuel toks p1.1 []

end FreenasCli

namespace FreenasCli

/-- A bare root namespace (the source's `RootNamespace('')` has the empty
name). -/
def emptyRoot : NsTree := NsTree.mk ("") [] []

/-- The mocked command `c` of the C2 scenario. -/
def cCmd : CmdSpec := ⟨"c", CmdKind.plain, RVal.str ("cret")⟩

/-- Namespace `b` of the C2 scenario, exposing command `c`. -/
def bNs : NsTree := NsTree.mk ("b") [] [(("c"), cCmd)]

/-- Namespace `a` of the C2 scenario, containing `b`. -/
def aNs : NsTree := NsTree.mk ("a") [bNs] []

/-- The root namespace of the C2 scenario: root contains `a` contains `b`
exposing `c`. -/
def demoRoot : NsTree := NsTree.mk ("") [aNs] []

/-- The statement `a b c arg=1` as the grammar produces it (also proved
below from `parse`). -/
def c2stmt : Ast := Ast.commandCall
  [Ast.symbol ("a"), Ast.symbol ("b"), Ast.symbol ("c"),
   Ast.binaryParameter ("arg") ("=") (Ast.litInt 1)]

/-- C2, counterexample: evaluating `a b c arg=1` from the root leaves the
evaluator's working path at the root — not at `a/b` as the claim states.
The first conjunct fixes the parse of the scenario input, the second
computes the resulting working path, and the third is the denial of the
claimed final path. -/
theorem c2_working_path_counterexample :
    parse ("a b c arg=1") = Except.ok [c2stmt] ∧
    (evalTop c2stmt (initSt demoRoot)).1.path = [demoRoot] ∧
    (evalTop c2stmt (initSt demoRoot)).1.path ≠ [demoRoot, aNs, bNs] := by
  refine ⟨rfl, rfl, ?_⟩
  have h2 : (evalTop c2stmt (initSt demoRoot)).1.path = [demoRoot] := rfl
  rw [h2]
  intro h
  simpa using congrArg List.length h

/-- C2, amended: evaluating `a b c arg=1` descends into `a` then `b`
(their `on_enter` hooks fire in that order), invokes `c` once with the
keyword argument `arg=1` as classified by `sort_args` (no positional or
operator arguments), returns the command's result — and leaves the
evaluator's working path unchanged at the root: the traversal extends only
the transient path accumulator, and only a bare namespace path (no
trailing command) changes the working path via `cd`. -/
theorem c2_descend_and_invoke_amended :
    (evalTop c2stmt (initSt demoRoot)).1.log =
      [Ev.nsEnter ("a"), Ev.nsEnter ("b"),
       Ev.cmdRun ("c") [] [(("arg"), Value.vint 1)] []] ∧
    (evalTop c2stmt (initSt demoRoot)).2 = Except.ok (Value.vstr ("cret")) ∧
    (evalTop c2stmt (initSt demoRoot)).1.path = [demoRoot] ∧
    (evalTop (Ast.commandCall [Ast.symbol ("a"), Ast.symbol ("b")])
        (initSt demoRoot)).1.path = [demoRoot, aNs, bNs] := by
  exact ⟨rfl, rfl, rfl, rfl⟩

/-- The statement `for (i in [1]) { if (true) { break } }` as the grammar
produces it. -/
def c3bad : Ast := Ast.forStatement ("i") (Ast.litList [Ast.litInt 1])
  [Ast.ifStatement (Ast.litBool true) [Ast.breakStatement] []]

/-- C3, counterexample: a break inside an if body inside a loop does not
propagate to the enclosing loop — `MainLoop.eval` runs the if body through
`eval_block` with `allow_break=False` (repl.py line 865), so the BREAK
signal is rejected with the SyntaxError of repl.py line 784 instead of
terminating the loop. -/
theorem c3_break_in_if_counterexample :
    parse ("for (i in [1]) " ++ String.mk [lbraceChar] ++ " if (true) "
        ++ String.mk [lbraceChar] ++ " break " ++ String.mk [rbraceChar] ++ " "
        ++ String.mk [rbraceChar]) = Except.ok [c3bad] ∧
    (evalTop c3bad (initSt emptyRoot)).2 =
      Except.error (Err.syntaxErr ("\x27break\x27 cannot be used in this block")) := by
  exact ⟨rfl, rfl⟩

/-- The right-hand side of `x = 1 + 2 * 3 > 5` under the documented
precedence (comparison binds tighter than `*`, which binds tighter than
`+`). -/
def c5tree : Ast := Ast.binaryExpr (Ast.litInt 1) ("+")
  (Ast.binaryExpr (Ast.litInt 2) ("*")
    (Ast.binaryExpr (Ast.litInt 3) (">") (Ast.litInt 5)))

/-- The same expression under the conventional precedence, for contrast. -/
def c5conv : Ast := Ast.binaryExpr
  (Ast.binaryExpr (Ast.litInt 1) ("+")
    (Ast.binaryExpr (Ast.litInt 2) ("*") (Ast.litInt 3))) (">") (Ast.litInt 5)

/-- C5: `1 + 2 * 3 > 5` parses with the documented (unusual) precedence
table of parser.py lines 240-250 — `{+,-}` lowest, then `{*,/}`, with the
comparisons higher — so the tree is `1 + (2 * (3 > 5))`, and evaluation
(through the spec-modelled Python operator semantics) assigns `1` to `x`
(3 > 5 is False, 2 * False is 0, 1 + 0 is 1), not the conventional reading
`(1 + 2*3) > 5`, which would evaluate to True. -/
theorem c5_precedence_inverted :
    parse ("x = 1 + 2 * 3 > 5") = Except.ok [Ast.assignName ("x") c5tree] ∧
    alookup ((evalTop (Ast.assignName ("x") c5tree) (initSt emptyRoot)).1.getEnv 0).vars
      ("x") = some (Cell.variable (Value.vint 1)) ∧
    (evalTop c5conv (initSt emptyRoot)).2 = Except.ok (Value.vbool true) ∧
    Value.vint 1 ≠ Value.vbool true := by
  refine ⟨rfl, rfl, rfl, ?_⟩
  intro h
  exact Value.noConfusion h

/-- C6, counterexample: `unparse` is not the structural inverse of `parse`:
the statement `break` parses, but `unparse` has no `BreakStatement` case
and renders it as the empty string (the trailing `return ''` of parser.py
line 943), and re-parsing the empty string raises the bare `p_error`
SyntaxError — so parse-unparse-parse does not yield the first AST. -/
theorem c6_roundtrip_counterexample :
    parse ("break") = Except.ok [Ast.breakStatement] ∧
    unparse Ast.breakStatement 0 true = ("") ∧
    parse (unparse Ast.breakStatement 0 true) =
      Except.error (Err.syntaxErr ("Parse error")) := by
  exact ⟨rfl, rfl, rfl⟩

/-- C8: the lexer converts size-suffixed and based integer literals to
integers — `10k` to 10000, `10kib` to 10240, `0x1F` to 31, `0b101` to 5 —
and the same decimal/binary split applies to the m/g/t suffixes
(`t_SIZE`, `t_HEXNUMBER`, `t_BINNUMBER`, parser.py lines 129-191). -/
theorem c8_numeric_literals :
    tokenize ("10k") = Except.ok [Token.NUMBER 10000] ∧
    tokenize ("10kib") = Except.ok [Token.NUMBER 10240] ∧
    tokenize ("0x1F") = Except.ok [Token.HEXNUMBER 31] ∧
    tokenize ("0b101") = Except.ok [Token.BINNUMBER 5] ∧
    tokenize ("10m") = Except.ok [Token.NUMBER 10000000] ∧
    tokenize ("10mib") = Except.ok [Token.NUMBER 10485760] ∧
    tokenize ("10g") = Except.ok [Token.NUMBER 10000000000] ∧
    tokenize ("10gib") = Except.ok [Token.NUMBER 10737418240] ∧
    tokenize ("10t") = Except.ok [Token.NUMBER 10000000000000] ∧
    tokenize ("10tib") = Except.ok [Token.NUMBER 10995116277760] := by
  exact ⟨rfl, rfl, rfl, rfl, rfl, rfl, rfl, rfl, rfl, rfl⟩

/-- The mocked `FilteringCommand` `show` of the C1 scenario; its `run` is
the mocked query implementation, which records the filtering argument it
receives. -/
def showCmd : CmdSpec := ⟨"show", CmdKind.filtering, RVal.list [RVal.str ("root")]⟩

/-- The root namespace of the C1 scenario, exposing `show`. -/
def c1root : NsTree := NsTree.mk ("") [] [(("show"), showCmd)]

/-- The statement `show | search name == root | sort name` as the grammar
produces it (also proved below from `parse`). -/
def c1ast : Ast := Ast.pipeExpr (Ast.commandCall [Ast.symbol ("show")])
  (Ast.pipeExpr
    (Ast.commandCall [Ast.symbol ("search"),
      Ast.binaryParameter ("name") ("==") (Ast.symbol ("root"))])
    (Ast.commandCall [Ast.symbol ("sort"), Ast.symbol ("name")]))

/-- Whether a logged invocation is an invocation of the mocked query
command `show`. -/
def isShowEvent : Ev → Bool
  | .cmdRun n _ _ _ => n = ("show" : String)
  | .filtRun n _ _ _ _ => n = ("show" : String)
  | .pipeRun n _ _ _ _ => n = ("show" : String)
  | _ => false

/-- The combined predicate set the C1 scenario must deliver: filter
`[name = root]` and sort key `name`. -/
def c1filt : Filt :=
  ⟨[(("name"), ("="), Value.vstr ("root"))], [(("sort"), Value.vlist [Value.vstr ("name")])]⟩

/-- C1: for `show | search name == root | sort name` against a namespace
whose query implementation (`show`, a `FilteringCommand`) is mocked, the
left pipe side resolves in dry-run mode, the rest of the chain is walked
in the `serialize_filter` pass, and the query is invoked exactly once,
with the combined predicate set `[name = root]` and sort parameter
`name` — never first without the predicate (the full invocation log holds
a single `show` event, and it carries the combined filter). -/
theorem c1_filter_pushdown :
    parse ("show | search name == root | sort name") = Except.ok [c1ast] ∧
    ((evalTop c1ast (initSt c1root)).1.log.filter isShowEvent) =
      [Ev.filtRun ("show") [] [] [] (some c1filt)] ∧
    (evalTop c1ast (initSt c1root)).2 = Except.ok (Value.vlist [Value.vstr ("root")]) := by
  exact ⟨rfl, rfl, rfl⟩

end FreenasCli

namespace FreenasCli

/-- Whether a result is a normal return (no exception escaped). -/
def isOkB {α : Type} : Except Err α → Bool
  | .ok _ => true
  | .error _ => false

/-- Looking up the key just set finds the new cell. -/
theorem alookup_aset_self {α : Type} (l : List (String × α)) (k : String) (v : α) :
    alookup (aset l k v) k = some v := by
  induction l with
  | nil => simp [aset, alookup]
  | cons hd tl ih =>
    by_cases h : hd.1 = k
    · simp [aset, h, alookup]
    · simp [aset, h, alookup, ih]

/-- Looking up a different key is unaffected by `aset`. -/
theorem alookup_aset_ne {α : Type} (l : List (String × α)) (k k' : String) (v : α)
    (h : k ≠ k') : alookup (aset l k v) k' = alookup l k' := by
  induction l with
  | nil => simp [aset, alookup, h]
  | cons hd tl ih =>
    by_cases h2 : hd.1 = k
    · simp [aset, h2, alookup, h]
    · simp [aset, h2, alookup, ih]

/-- Reading the environment just written by `setLocal`. -/
theorem getEnv_setLocal_self (st : St) (i : Nat) (k : String) (c : Cell) :
    ((st.setLocal i k c).getEnv i).vars = aset (st.getEnv i).vars k c := by
  simp [St.setLocal, St.setEnv, St.getEnv]

/-- C9: every evaluation of a command call stores `_success` as a fresh
`Variable` in the evaluation environment — `True` exactly when the
evaluation returned normally and `False` when any exception escaped
(resolution errors, command errors, and the fall-through not-found error,
whose path first stores `True` from the `finally` and then overwrites it
with `False`); see `cmdWrap` and repl.py lines 928, 977-984. -/
theorem c9_success_flag (fuel : Nat) (args : List Ast) (envId : Nat)
    (path : List NsTree) (sf : Option Nat) (input : Option Value) (dry : Bool) (st : St) :
    alookup (((evalT (fuel + 1) (Ast.commandCall args) envId path sf input dry st).1.getEnv
        envId)).vars ("_success") =
      some (Cell.variable (Value.vbool
        (isOkB (evalT (fuel + 1) (Ast.commandCall args) envId path sf input dry st).2))) := by
  have heq : evalT (fuel + 1) (Ast.commandCall args) envId path sf input dry st =
      cmdWrap envId (runCmdCore (fun t e p s i d stx => evalT fuel t e p s i d stx)
        envId args path sf input dry
        (if st.startFromRoot
          then { st with path := st.rootPath, startFromRoot := false } else st)) := rfl
  rw [heq]
  rcases hr : runCmdCore (fun t e p s i d stx => evalT fuel t e p s i d stx)
      envId args path sf input dry
      (if st.startFromRoot
        then { st with path := st.rootPath, startFromRoot := false } else st) with ⟨st1, r⟩
  match r with
  | .ok (CmdOutcome.ret v) =>
    simp [cmdWrap, isOkB, getEnv_setLocal_self, alookup_aset_self]
  | .ok (CmdOutcome.fell e) =>
    simp [cmdWrap, isOkB, getEnv_setLocal_self, alookup_aset_self]
  | .error e =>
    simp [cmdWrap, isOkB, getEnv_setLocal_self, alookup_aset_self]

/-- C9 witness: the flag at a concrete input (the C2 scenario command,
which succeeds, stores `_success = True` in the global environment). -/
theorem c9_success_flag_witness :
    alookup (((evalT (99 + 1) (Ast.commandCall [Ast.symbol ("a"), Ast.symbol ("b"),
        Ast.symbol ("c"), Ast.binaryParameter ("arg") ("=") (Ast.litInt 1)]) 0 []
        Option.none Option.none false (initSt demoRoot)).1.getEnv 0)).vars ("_success") =
      some (Cell.variable (Value.vbool true)) := by
  have h := c9_success_flag 99 [Ast.symbol ("a"), Ast.symbol ("b"),
    Ast.symbol ("c"), Ast.binaryParameter ("arg") ("=") (Ast.litInt 1)] 0 []
    Option.none Option.none false (initSt demoRoot)
  simpa using h

/-- C10: an assignment statement whose target name is a CLI configuration
environment variable evaluates the right-hand side first and then raises
the SyntaxError directing the user to `setenv` (repl.py lines 838-847),
leaving the state exactly as the right-hand-side evaluation left it — in
particular neither the configuration variable nor the user environment is
touched by the assignment itself. -/
theorem c10_config_var_assignment (fuel : Nat) (name : String) (rhs : Ast) (envId : Nat)
    (path : List NsTree) (sf : Option Nat) (input : Option Value) (dry : Bool)
    (st st1 : St) (v cv : Value)
    (hsfr : st.startFromRoot = false)
    (hrhs : evalT fuel rhs envId [] Option.none Option.none false st = (st1, .ok v))
    (hcfg : alookup st1.configVars name = some cv) :
    evalT (fuel + 1) (Ast.assignName name rhs) envId path sf input dry st =
      (st1, .error (Err.syntaxErr
        (name ++ " is an Environment Variable. Use `setenv` command to set it"))) := by
  show (let st' := if st.startFromRoot
          then { st with path := st.rootPath, startFromRoot := false } else st
        bindE (evalT fuel rhs envId [] Option.none Option.none false st')
          fun rhsv stx =>
            match alookup stx.configVars name with
            | some _ =>
              (stx, .error (Err.syntaxErr
                (name ++ " is an Environment Variable. Use `setenv` command to set it")))
            | Option.none =>
              match envFindLoc stx envId name with
              | some (j, Cell.variable _) =>
                (stx.setLocal j name (Cell.variable rhsv), .ok Value.none)
              | some (_, Cell.raw w) =>
                if w.attrSettable then (stx, .ok Value.none)
                else (stx, .error (Err.attrErr ("object has no attribute value")))
              | Option.none =>
                if stx.builtinFunctions.contains name then (stx, .ok Value.none)
                else (stx.setLocal envId name (Cell.variable rhsv), .ok Value.none)) = _
  simp only [hsfr, if_false, Bool.false_eq_true]
  rw [hrhs]
  simp only [bindE, hcfg]

/-- C10 witness: `timeout = 5` at the initial state raises the setenv
error and leaves the session state untouched. -/
theorem c10_config_var_assignment_witness :
    evalT 51 (Ast.assignName ("timeout") (Ast.litInt 5)) 0 [] Option.none Option.none
        false (initSt emptyRoot) =
      (initSt emptyRoot, .error (Err.syntaxErr
        ("timeout is an Environment Variable. Use `setenv` command to set it"))) := by
  exact c10_config_var_assignment 50 ("timeout") (Ast.litInt 5) 0 [] Option.none
    Option.none false (initSt emptyRoot) (initSt emptyRoot) (Value.vint 5)
    (Value.vint 10) rfl rfl rfl

/-- C4, amended part: the statement driver's evaluation loop catches every
error except the process-termination request — `processTokens` can only
escape with `SystemExit` (repl.py lines 1069-1085, 1099-1100). -/
theorem c4_driver_catches_all (fuel : Nat) (tokens : List Ast) (st : St)
    (out : List OutEvent) :
    (processTokens fuel tokens st out).2.2 = Option.none ∨
    (processTokens fuel tokens st out).2.2 = some Err.systemExit := by
  induction tokens generalizing st out with
  | nil => left; rfl
  | cons t rest ih =>
    rcases h : evalTopF fuel t st with ⟨st1, r⟩
    match r with
    | .ok v =>
      by_cases hv : v.truthy
      · have he : processTokens fuel (t :: rest) st out =
            processTokens fuel rest st1 (out ++ [OutEvent.formatted v]) := by
          simp [processTokens, h, hv]
        rw [he]
        exact ih st1 (out ++ [OutEvent.formatted v])
      · have he : processTokens fuel (t :: rest) st out =
            processTokens fuel rest st1 out := by
          simp [processTokens, h, hv]
        rw [he]
        exact ih st1 out
    | .error Err.systemExit => right; simp [processTokens, h]
    | .error (Err.syntaxErr m) => left; simp [processTokens, h]
    | .error (Err.keyErr m) => left; simp [processTokens, h]
    | .error (Err.typeErr m) => left; simp [processTokens, h]
    | .error (Err.indexErr m) => left; simp [processTokens, h]
    | .error (Err.attrErr m) => left; simp [processTokens, h]
    | .error (Err.flow a b) => left; simp [processTokens, h]
    | .error Err.fuel => left; simp [processTokens, h]

/-- A session whose working path is inside namespace `a` of the C2 tree. -/
def c4start : St :=
  { initSt demoRoot with path := [demoRoot, aNs], prevPath := [demoRoot, aNs] }

/-- C4, counterexample: the driver does not restore the pre-statement
navigation path.  Processing `/nosuch` from inside `a` arms
`start_from_root`, the evaluator resets the path to the root (repl.py
lines 789-791), resolution then fails, the error is caught and reported
and the session continues — but the path stays at the root instead of
being restored to the pre-statement `/a`. -/
theorem c4_path_not_restored_counterexample :
    (process 100 ("/nosuch") c4start).2.2 = Option.none ∧
    (process 100 ("/nosuch") c4start).2.1 =
      [OutEvent.msg ("Error: nosuch not found")] ∧
    (process 100 ("/nosuch") c4start).1.path = [demoRoot] ∧
    (process 100 ("/nosuch") c4start).1.path ≠ c4start.path := by
  refine ⟨rfl, rfl, ?_, ?_⟩
  · rfl
  · have h2 : (process 100 ("/nosuch") c4start).1.path = [demoRoot] := rfl
    have h3 : c4start.path.length = 2 := rfl
    intro h
    rw [h2] at h
    have h4 := congrArg List.length h
    rw [h3] at h4
    simpa using h4

end FreenasCli

namespace FreenasCli

/-- The C7 scenario program: `function f(a, b) { return b }`. -/
def c7def (a b : String) : Ast :=
  Ast.functionDefinition ("f") [a, b] [Ast.returnStatement (Ast.symbol b)]

/-- The session after defining `f` at the fresh state over the bare root. -/
def c7st1 (a b : String) : St :=
  (evalT 1 (c7def a b) 0 [] Option.none Option.none false (initSt emptyRoot)).1

/-- The result of then calling `f(k)` — one argument for two parameters. -/
def c7res (a b : String) (k : Int) : St × Except Err Value :=
  evalT 3 (Ast.functionCall ("f") [Ast.litInt k]) 0 [] Option.none Option.none false
    (c7st1 a b)

/-- The session state with the call-stack entry for `f(k)` pushed. -/
def c7st2 (a b : String) (k : Int) : St :=
  { c7st1 a b with
    callStack := (c7st1 a b).callStack ++ [(⟨("f"), [Value.vint k]⟩ : CallStackEntry)] }

/-- The state inside the body of `f`: the fresh call environment (reference
1) holds the one positional binding `zip` produced and chains to the
closure environment 0. -/
def c7stB (a b : String) (k : Int) : St :=
  ((c7st2 a b k).allocEnv ⟨[(a, Cell.variable (Value.vint k))], some 0⟩).1

/-- A name that is no builtin command resolves to nothing in the scope of
the bare root namespace. -/
theorem c7_find_in_scope_empty (b : String)
    (hbc : alookup builtin_commands b = Option.none) :
    find_in_scope emptyRoot b = Option.none := by
  show (match alookup builtin_commands b with
    | some c => some (ScopeItem.cmdI c)
    | Option.none =>
      match emptyRoot.namespaces.find? (fun ns => ns.get_name = b) with
      | some t => some (ScopeItem.nsI t)
      | Option.none =>
        match alookup emptyRoot.commands b with
        | some c => some (ScopeItem.cmdI c)
        | Option.none => Option.none) = Option.none
  rw [hbc]
  rfl

/-- Evaluating a `Symbol` that is bound nowhere — not in the environment
chain, not in scope, not a config variable — raises the unresolved-name
SyntaxError of repl.py line 837. -/
theorem c7_symbol_eval (b : String) (st : St)
    (hsfr : st.startFromRoot = false)
    (hpath : st.path = [emptyRoot])
    (h1 : envFind st 1 b = Option.none)
    (hbc : find_in_scope emptyRoot b = Option.none)
    (hcv : alookup st.configVars b = Option.none) :
    evalT 1 (Ast.symbol b) 1 [] Option.none Option.none false st =
      (st, .error (Err.syntaxErr (b ++ " not found"))) := by
  show (let st1 := if st.startFromRoot
          then { st with path := st.rootPath, startFromRoot := false } else st
        let cwd := ([] : List NsTree).getLast?.getD st1.cwd
        match envFind st1 1 b with
        | some cell => (st1, Except.ok cell.symbolValue)
        | Option.none =>
          match find_in_scope cwd b with
          | some (ScopeItem.nsI t) => (st1, Except.ok (Value.nsVal t))
          | some (ScopeItem.cmdI c) => (st1, Except.ok (Value.cmdVal c))
          | Option.none =>
            match alookup st1.configVars b with
            | some _ => (st1, Except.ok (Value.configVar b))
            | Option.none =>
              (st1, Except.error (Err.syntaxErr (b ++ " not found")))) =
      ((st, Except.error (Err.syntaxErr (b ++ " not found"))) : St × Except Err Value)
  simp only [hsfr, if_false, Bool.false_eq_true, List.getLast?, Option.getD, St.cwd, hpath]
  simp only [h1, hcv]
  simp only [List.getLast_singleton, hbc]

/-- C7: a function `f(a, b)` called with the single argument `k` binds the
parameters positionally in a fresh environment chained to the closure
(`zip` truncation, repl.py line 586): `a` holds `k` as a `Variable`, the
unmatched `b` is absent from the call scope, and evaluating `return b`
fails with the unresolved-name error — it does not default to null. -/
theorem c7_missing_arg (a b : String) (k : Int)
    (hab : a ≠ b) (hbf : b ≠ ("f" : String))
    (hbc : alookup builtin_commands b = Option.none)
    (hbv : alookup defaultConfigVars b = Option.none) :
    (c7res a b k).2 = Except.error (Err.syntaxErr (b ++ " not found")) ∧
    ((c7res a b k).1.getEnv 1).outer = some 0 ∧
    alookup ((c7res a b k).1.getEnv 1).vars b = Option.none ∧
    alookup ((c7res a b k).1.getEnv 1).vars a =
      some (Cell.variable (Value.vint k)) := by
  have h1 : envFind (c7stB a b k) 1 b = Option.none := by
    simp [envFind, envFindLoc, envFindLocChain, c7stB, c7st2, c7st1, c7def, evalT,
      initSt, St.allocEnv, St.getEnv, St.setEnv, St.setLocal, alookup, aset, hab,
      Ne.symm hbf]
  have hsym := c7_symbol_eval b (c7stB a b k) rfl rfl h1
    (c7_find_in_scope_empty b hbc) hbv
  have hret : evalT 2 (Ast.returnStatement (Ast.symbol b)) 1 [] Option.none Option.none
      false (c7stB a b k) =
      (c7stB a b k, Except.error (Err.syntaxErr (b ++ " not found"))) := by
    show bindE (evalT 1 (Ast.symbol b) 1 [] Option.none Option.none false (c7stB a b k))
      (fun v st1 =>
        (st1, Except.ok (Value.fciV FlowControlInstructionType.RETURN v))) = _
    rw [hsym]
    rfl
  have hblock : runBlock (fun t e p s i d stx => evalT 2 t e p s i d stx) 1 false
      [Ast.returnStatement (Ast.symbol b)] (c7stB a b k) =
      (c7stB a b k, Except.error (Err.syntaxErr (b ++ " not found"))) := by
    show (match evalT 2 (Ast.returnStatement (Ast.symbol b)) 1 [] Option.none Option.none
        false (c7stB a b k) with
      | (st1, Except.error e) => (st1, Except.error e)
      | (st1, Except.ok (Value.fciV t payload)) =>
        match t, false with
        | FlowControlInstructionType.BREAK, false =>
          (st1, Except.error (Err.syntaxErr ("\x27break\x27 cannot be used in this block")))
        | _, _ => (st1, Except.error (Err.flow t payload))
      | (st1, Except.ok _) =>
        runBlock (fun t e p s i d stx => evalT 2 t e p s i d stx) 1 false [] st1) = _
    rw [hret]
  have hcall : callUser (fun t e p s i d stx => evalT 2 t e p s i d stx) [a, b]
      [Ast.returnStatement (Ast.symbol b)] 0 [Value.vint k] (c7st2 a b k) =
      (c7stB a b k, Except.error (Err.syntaxErr (b ++ " not found"))) := by
    show (match runBlock (fun t e p s i d stx => evalT 2 t e p s i d stx) 1 false
        [Ast.returnStatement (Ast.symbol b)] (c7stB a b k) with
      | (st2, Except.ok ()) => (st2, Except.ok Value.none)
      | (st2, Except.error (Err.flow FlowControlInstructionType.RETURN payload)) =>
        (st2, Except.ok payload)
      | (st2, Except.error e) => (st2, Except.error e)) = _
    rw [hblock]
  have hres : c7res a b k =
      (c7stB a b k, Except.error (Err.syntaxErr (b ++ " not found"))) := by
    show (match callUser (fun t e p s i d stx => evalT 2 t e p s i d stx) [a, b]
        [Ast.returnStatement (Ast.symbol b)] 0 [Value.vint k] (c7st2 a b k) with
      | (st3, Except.ok res) =>
        ({ st3 with callStack := st3.callStack.dropLast }, Except.ok res)
      | (st3, Except.error e) => (st3, Except.error e)) = _
    rw [hcall]
  refine ⟨?_, ?_, ?_, ?_⟩
  · rw [hres]
  · rw [hres]
    rfl
  · rw [hres]
    show alookup [(a, Cell.variable (Value.vint k))] b = Option.none
    simp [alookup, hab]
  · rw [hres]
    show alookup [(a, Cell.variable (Value.vint k))] a =
      some (Cell.variable (Value.vint k))
    simp [alookup]

/-- C7 witness: `function f(x, y) { return y }` called as `f(7)` — `y` is
unresolved, `x` holds 7. -/
theorem c7_missing_arg_witness :
    (c7res ("x") ("y") 7).2 =
      Except.error (Err.syntaxErr (("y" : String) ++ " not found")) ∧
    ((c7res ("x") ("y") 7).1.getEnv 1).outer = some 0 ∧
    alookup ((c7res ("x") ("y") 7).1.getEnv 1).vars ("y") = Option.none ∧
    alookup ((c7res ("x") ("y") 7).1.getEnv 1).vars ("x") =
      some (Cell.variable (Value.vint 7)) :=
  c7_missing_arg ("x") ("y") 7 (by decide) (by decide) (by rfl) (by rfl)

end FreenasCli

namespace FreenasCli

/-- The inner loop of the C3-amended scenario: `for (j in ys) { break }`. -/
def c3inner (y0 : Int) (ytail : List Int) : Ast :=
  Ast.forStatement ("j") (Ast.litList ((y0 :: ytail).map Ast.litInt)) [Ast.breakStatement]

/-- The outer loop: `for (i in xs) { for (j in ys) { break } }`. -/
def c3outer (xs : List Int) (y0 : Int) (ytail : List Int) : Ast :=
  Ast.forStatement ("i") (Ast.litList (xs.map Ast.litInt)) [c3inner y0 ytail]

/-- The evaluation of the nested-loop program at a fresh session. -/
def c3r (xs : List Int) (y0 : Int) (ytail : List Int) : St × Except Err Value :=
  evalT 5 (c3outer xs y0 ytail) 0 [] Option.none Option.none false (initSt emptyRoot)

/-- An integer literal evaluates to its value without touching the state. -/
theorem evalT_litInt (f : Nat) (n : Int) (e : Nat) (st : St)
    (h : st.startFromRoot = false) :
    evalT (f + 1) (Ast.litInt n) e [] Option.none Option.none false st =
      (st, Except.ok (Value.vint n)) := by
  show ((if st.startFromRoot
      then { st with path := st.rootPath, startFromRoot := false } else st),
    Except.ok (Value.vint n)) = (st, Except.ok (Value.vint n))
  rw [h]
  rfl

/-- Elementwise evaluation of a list of integer literals. -/
theorem runList_litInt (f : Nat) (e : Nat) (xs : List Int) :
    ∀ st : St, st.startFromRoot = false →
    runList (fun t e2 p s i d stx => evalT (f + 1) t e2 p s i d stx) e []
        (xs.map Ast.litInt) st =
      (st, Except.ok (xs.map Value.vint)) := by
  induction xs with
  | nil => intro st h; rfl
  | cons x rest ih =>
    intro st h
    show bindE (evalT (f + 1) (Ast.litInt x) e [] Option.none Option.none false st)
      (fun v st1 =>
        bindE (runList (fun t e2 p s i d stx => evalT (f + 1) t e2 p s i d stx) e []
          (rest.map Ast.litInt) st1)
        fun vs st2 => (st2, Except.ok (v :: vs))) = _
    rw [evalT_litInt f x e st h]
    show bindE (runList (fun t e2 p s i d stx => evalT (f + 1) t e2 p s i d stx) e []
        (rest.map Ast.litInt) st) (fun vs st2 => (st2, Except.ok (Value.vint x :: vs))) = _
    rw [ih st h]
    rfl

/-- A list literal of integer literals evaluates to the value list. -/
theorem evalT_litList (f : Nat) (xs : List Int) (e : Nat) (st : St)
    (h : st.startFromRoot = false) :
    evalT (f + 2) (Ast.litList (xs.map Ast.litInt)) e [] Option.none Option.none false st =
      (st, Except.ok (Value.vlist (xs.map Value.vint))) := by
  show bindE (runList (fun t e2 p s i d stx => evalT (f + 1) t e2 p s i d stx) e []
      (xs.map Ast.litInt) (if st.startFromRoot
        then { st with path := st.rootPath, startFromRoot := false } else st))
    (fun vs st1 => (st1, Except.ok (Value.vlist vs))) = _
  rw [h]
  show bindE (runList (fun t e2 p s i d stx => evalT (f + 1) t e2 p s i d stx) e []
      (xs.map Ast.litInt) st) (fun vs st1 => (st1, Except.ok (Value.vlist vs))) = _
  rw [runList_litInt f e xs st h]
  rfl

/-- Mirroring repl.py line 919: `break` evaluates to the BREAK
flow-control instruction as an ordinary return value. -/
theorem evalT_break (f : Nat) (e : Nat) (st : St) (h : st.startFromRoot = false) :
    evalT (f + 1) Ast.breakStatement e [] Option.none Option.none false st =
      (st, Except.ok (Value.fciV FlowControlInstructionType.BREAK Value.none)) := by
  show ((if st.startFromRoot
      then { st with path := st.rootPath, startFromRoot := false } else st),
    Except.ok (Value.fciV FlowControlInstructionType.BREAK Value.none)) = _
  rw [h]
  rfl

end FreenasCli

namespace FreenasCli

/-- The state effect of one full evaluation of the inner `for`: a fresh
loop environment is allocated and `j` is bound to the first element only
(the break fires before any further iteration). -/
def c3innerStep (y0 : Int) (st : St) : St :=
  ((st.allocEnv ⟨[], some 1⟩).1).setLocal st.nextEnv ("j") (Cell.raw (Value.vint y0))

/-- Evaluating the block `{ break }` with `allow_break` raises the BREAK
flow signal (repl.py lines 781-786). -/
theorem c3_block_break (lid : Nat) (st : St) (h : st.startFromRoot = false) :
    runBlock (fun t e p s i d stx => evalT 3 t e p s i d stx) lid true
        [Ast.breakStatement] st =
      (st, Except.error (Err.flow FlowControlInstructionType.BREAK Value.none)) := by
  show (match evalT 3 Ast.breakStatement lid [] Option.none Option.none false st with
    | (st1, Except.error e) => (st1, Except.error e)
    | (st1, Except.ok (Value.fciV t payload)) =>
      match t, true with
      | FlowControlInstructionType.BREAK, false =>
        (st1, Except.error (Err.syntaxErr ("\x27break\x27 cannot be used in this block")))
      | _, _ => (st1, Except.error (Err.flow t payload))
    | (st1, Except.ok _) => runBlock (fun t e p s i d stx => evalT 3 t e p s i d stx)
        lid true [] st1) = _
  rw [evalT_break 2 lid st h]

/-- One evaluation of the inner loop: the break terminates it after the
first iteration, the loop statement itself returns None — the BREAK
signal is consumed by the innermost loop and does not escape. -/
theorem c3_inner_eval (y0 : Int) (ytail : List Int) (st : St)
    (h : st.startFromRoot = false) :
    evalT 4 (c3inner y0 ytail) 1 [] Option.none Option.none false st =
      (c3innerStep y0 st, Except.ok Value.none) := by
  have hbb := c3_block_break st.nextEnv (c3innerStep y0 st) h
  show (let stx := if st.startFromRoot
          then { st with path := st.rootPath, startFromRoot := false } else st
        bindE (evalT 3 (Ast.litList ((y0 :: ytail).map Ast.litInt)) 1 [] Option.none
            Option.none false (stx.allocEnv ⟨[], some 1⟩).1) fun xsv st2 =>
          match xsv with
          | Value.vlist vs => finishUnit (runForIter
              (fun t e p s i d stx2 => evalT 3 t e p s i d stx2) ("j")
              [Ast.breakStatement] (stx.allocEnv ⟨[], some 1⟩).2 vs st2)
          | Value.vdict ps => finishUnit (runForIter
              (fun t e p s i d stx2 => evalT 3 t e p s i d stx2) ("j")
              [Ast.breakStatement] (stx.allocEnv ⟨[], some 1⟩).2
              (ps.map fun p => p.1.toValue) st2)
          | _ => (st2, Except.error (Err.typeErr ("object is not iterable")))) = _
  rw [h]
  show bindE (evalT 3 (Ast.litList ((y0 :: ytail).map Ast.litInt)) 1 [] Option.none
      Option.none false (st.allocEnv ⟨[], some 1⟩).1) (fun xsv st2 =>
      match xsv with
      | Value.vlist vs => finishUnit (runForIter
          (fun t e p s i d stx2 => evalT 3 t e p s i d stx2) ("j")
          [Ast.breakStatement] st.nextEnv vs st2)
      | Value.vdict ps => finishUnit (runForIter
          (fun t e p s i d stx2 => evalT 3 t e p s i d stx2) ("j")
          [Ast.breakStatement] st.nextEnv (ps.map fun p => p.1.toValue) st2)
      | _ => (st2, Except.error (Err.typeErr ("object is not iterable")))) = _
  rw [evalT_litList 1 (y0 :: ytail) 1 ((st.allocEnv ⟨[], some 1⟩).1) h]
  show finishUnit (runForIter (fun t e p s i d stx2 => evalT 3 t e p s i d stx2) ("j")
      [Ast.breakStatement] st.nextEnv
      (Value.vint y0 :: ytail.map Value.vint) ((st.allocEnv ⟨[], some 1⟩).1)) = _
  show finishUnit (match runBlock (fun t e p s i d stx2 => evalT 3 t e p s i d stx2)
      st.nextEnv true [Ast.breakStatement] (c3innerStep y0 st) with
    | (st2, Except.ok ()) => runForIter (fun t e p s i d stx2 => evalT 3 t e p s i d stx2)
        ("j") [Ast.breakStatement] st.nextEnv (ytail.map Value.vint) st2
    | (st2, Except.error (Err.flow FlowControlInstructionType.BREAK _)) =>
      (st2, Except.ok ())
    | (st2, Except.error e) => (st2, Except.error e)) = _
  rw [hbb]
  rfl

end FreenasCli

namespace FreenasCli

/-- The state effect of one outer iteration: bind `i` in the outer loop
environment (reference 1), then run the inner loop once. -/
def c3Step (y0 : Int) (v : Value) (st : St) : St :=
  c3innerStep y0 (st.setLocal 1 ("i") (Cell.raw v))

/-- The outer loop as a fold of per-iteration effects. -/
def c3Run (y0 : Int) : List Value → St → St
  | [], st => st
  | v :: rest, st => c3Run y0 rest (c3Step y0 v st)

/-- The outer loop iterates over its whole list — the BREAK consumed by
the inner loop never reaches it. -/
theorem c3_outer_iter (y0 : Int) (ytail : List Int) (vs : List Value) :
    ∀ st : St, st.startFromRoot = false →
    runForIter (fun t e p s i d stx => evalT 4 t e p s i d stx) ("i") [c3inner y0 ytail] 1
        vs st = (c3Run y0 vs st, Except.ok ()) := by
  induction vs with
  | nil => intro st h; rfl
  | cons v rest ih =>
    intro st h
    have hinner := c3_inner_eval y0 ytail (st.setLocal 1 ("i") (Cell.raw v)) h
    have hblock : runBlock (fun t e p s i d stx => evalT 4 t e p s i d stx) 1 true
        [c3inner y0 ytail] (st.setLocal 1 ("i") (Cell.raw v)) =
        (c3Step y0 v st, Except.ok ()) := by
      show (match evalT 4 (c3inner y0 ytail) 1 [] Option.none Option.none false
          (st.setLocal 1 ("i") (Cell.raw v)) with
        | (st1, Except.error e) => (st1, Except.error e)
        | (st1, Except.ok (Value.fciV t payload)) =>
          match t, true with
          | FlowControlInstructionType.BREAK, false =>
            (st1, Except.error (Err.syntaxErr ("\x27break\x27 cannot be used in this block")))
          | _, _ => (st1, Except.error (Err.flow t payload))
        | (st1, Except.ok _) => runBlock (fun t e p s i d stx => evalT 4 t e p s i d stx)
            1 true [] st1) = _
      rw [hinner]
      rfl
    show (match runBlock (fun t e p s i d stx => evalT 4 t e p s i d stx) 1 true
        [c3inner y0 ytail] (st.setLocal 1 ("i") (Cell.raw v)) with
      | (st2, Except.ok ()) => runForIter (fun t e p s i d stx => evalT 4 t e p s i d stx)
          ("i") [c3inner y0 ytail] 1 rest st2
      | (st2, Except.error (Err.flow FlowControlInstructionType.BREAK _)) =>
        (st2, Except.ok ())
      | (st2, Except.error e) => (st2, Except.error e)) = _
    rw [hblock]
    show runForIter (fun t e p s i d stx => evalT 4 t e p s i d stx) ("i")
        [c3inner y0 ytail] 1 rest (c3Step y0 v st) = _
    rw [ih (c3Step y0 v st) h]
    rfl

/-- Each outer iteration allocates exactly one inner-loop environment. -/
theorem c3Run_nextEnv (y0 : Int) (vs : List Value) : ∀ st : St,
    (c3Run y0 vs st).nextEnv = st.nextEnv + vs.length := by
  induction vs with
  | nil => intro st; rfl
  | cons v rest ih =>
    intro st
    show (c3Run y0 rest (c3Step y0 v st)).nextEnv = _
    rw [ih (c3Step y0 v st)]
    show (st.nextEnv + 1) + rest.length = st.nextEnv + (rest.length + 1)
    omega

/-- One outer iteration writes only environment 1 and the fresh one. -/
theorem c3Step_getEnv (y0 : Int) (v : Value) (st : St) (j : Nat) (h1 : j ≠ 1)
    (h2 : j < st.nextEnv) : (c3Step y0 v st).getEnv j = st.getEnv j := by
  have h3 : j ≠ st.nextEnv := Nat.ne_of_lt h2
  simp [c3Step, c3innerStep, St.setLocal, St.setEnv, St.allocEnv, St.getEnv, h1, h3]

/-- One outer iteration updates `i` in the outer loop environment. -/
theorem c3Step_env1 (y0 : Int) (v : Value) (st : St) (h2 : 2 ≤ st.nextEnv) :
    ((c3Step y0 v st).getEnv 1).vars = aset ((st.getEnv 1)).vars ("i") (Cell.raw v) := by
  have h3 : (1 : Nat) ≠ st.nextEnv := by omega
  simp [c3Step, c3innerStep, St.setLocal, St.setEnv, St.allocEnv, St.getEnv, h3]

/-- The fresh inner environment of an iteration holds exactly `j`, bound
to the first inner element. -/
theorem c3Step_newEnv (y0 : Int) (v : Value) (st : St) :
    ((c3Step y0 v st).getEnv st.nextEnv).vars = [(("j"), Cell.raw (Value.vint y0))] := by
  simp [c3Step, c3innerStep, St.setLocal, St.setEnv, St.allocEnv, St.getEnv, aset]

/-- The outer loop never rewrites environments below the allocation
frontier (other than the loop environment 1). -/
theorem c3Run_preserve (y0 : Int) (vs : List Value) : ∀ (st : St) (j : Nat), j ≠ 1 →
    j < st.nextEnv → (c3Run y0 vs st).getEnv j = st.getEnv j := by
  induction vs with
  | nil => intro st j h1 h2; rfl
  | cons v rest ih =>
    intro st j h1 h2
    show (c3Run y0 rest (c3Step y0 v st)).getEnv j = st.getEnv j
    rw [ih (c3Step y0 v st) j h1 (by show j < st.nextEnv + 1; omega)]
    exact c3Step_getEnv y0 v st j h1 h2

/-- A nonempty list has a last element. -/
theorem getLast?_cons_ne_none {α : Type} (a : α) (l : List α) :
    (a :: l).getLast? ≠ Option.none := by
  induction l generalizing a with
  | nil => simp
  | cons b m ih => rw [List.getLast?_cons_cons]; exact ih b

/-- After the outer loop, `i` holds the last iterated element. -/
theorem c3Run_i (y0 : Int) (vs : List Value) : ∀ st : St, 2 ≤ st.nextEnv →
    alookup ((c3Run y0 vs st).getEnv 1).vars ("i") =
      (match vs.getLast? with
       | some v => some (Cell.raw v)
       | Option.none => alookup ((st.getEnv 1)).vars ("i")) := by
  induction vs with
  | nil => intro st h; rfl
  | cons v rest ih =>
    intro st h
    show alookup ((c3Run y0 rest (c3Step y0 v st)).getEnv 1).vars ("i") = _
    rw [ih (c3Step y0 v st) (by show 2 ≤ st.nextEnv + 1; omega)]
    cases rest with
    | nil =>
      show alookup ((c3Step y0 v st).getEnv 1).vars ("i") = some (Cell.raw v)
      rw [c3Step_env1 y0 v st h, alookup_aset_self]
    | cons r rs =>
      rw [List.getLast?_cons_cons]
      cases hl : (r :: rs).getLast? with
      | none => exact absurd hl (getLast?_cons_ne_none r rs)
      | some w => rfl

/-- Every inner-loop environment the run left behind holds `j` bound to
the FIRST inner element: each inner loop was terminated by the break
after one iteration. -/
theorem c3Run_inner (y0 : Int) (vs : List Value) : ∀ st : St, 2 ≤ st.nextEnv →
    ∀ k, k < vs.length →
    ((c3Run y0 vs st).getEnv (st.nextEnv + k)).vars =
      [(("j"), Cell.raw (Value.vint y0))] := by
  induction vs with
  | nil => intro st h k hk; exact absurd hk (by simp)
  | cons v rest ih =>
    intro st h k hk
    show ((c3Run y0 rest (c3Step y0 v st)).getEnv (st.nextEnv + k)).vars = _
    cases k with
    | zero =>
      rw [c3Run_preserve y0 rest (c3Step y0 v st) (st.nextEnv + 0) (by omega)
        (by show st.nextEnv + 0 < st.nextEnv + 1; omega)]
      have := c3Step_newEnv y0 v st
      simpa using this
    | succ n =>
      have hn := ih (c3Step y0 v st) (by show 2 ≤ st.nextEnv + 1; omega) n
        (by simp at hk; omega)
      have he : (c3Step y0 v st).nextEnv = st.nextEnv + 1 := rfl
      rw [he] at hn
      have hi : st.nextEnv + (n + 1) = st.nextEnv + 1 + n := by omega
      rw [hi]
      exact hn

end FreenasCli

namespace FreenasCli

/-- The session state after the outer loop environment is allocated. -/
def c3stA : St := ((initSt emptyRoot).allocEnv ⟨[], some 0⟩).1

/-- Mapping preserves the last element. -/
theorem c3_getLast_map (xs : List Int) :
    (xs.map Value.vint).getLast? = xs.getLast?.map Value.vint := by
  induction xs with
  | nil => rfl
  | cons x rest ih =>
    cases rest with
    | nil => rfl
    | cons r rs =>
      simp only [List.map_cons, List.getLast?_cons_cons]
      simpa using ih

/-- C3, amended part: in `for (i in xs) { for (j in ys) { break } }` the
break terminates only the innermost loop and the outer loop continues
iterating: the program returns None normally; the outer loop ran once per
element of `xs` (one inner environment was allocated each time, so the
final allocation counter is 2 + |xs|); `i` ended at the last element of
`xs`; and every inner environment holds `j` bound to the FIRST element of
`ys` — each inner loop was cut short by the break after one iteration
while the outer loop kept going. -/
theorem c3_nested_break_amended (xs : List Int) (y0 : Int) (ytail : List Int) :
    (c3r xs y0 ytail).2 = Except.ok Value.none ∧
    (c3r xs y0 ytail).1.nextEnv = 2 + xs.length ∧
    alookup (((c3r xs y0 ytail).1.getEnv 1)).vars ("i") =
      xs.getLast?.map (fun x => Cell.raw (Value.vint x)) ∧
    ∀ k, k < xs.length →
      (((c3r xs y0 ytail).1.getEnv (2 + k))).vars =
        [(("j"), Cell.raw (Value.vint y0))] := by
  have hres : c3r xs y0 ytail =
      (c3Run y0 (xs.map Value.vint) c3stA, Except.ok Value.none) := by
    show bindE (evalT 4 (Ast.litList (xs.map Ast.litInt)) 0 [] Option.none Option.none
        false c3stA) (fun xsv st2 =>
        match xsv with
        | Value.vlist vs => finishUnit (runForIter
            (fun t e p s i d stx => evalT 4 t e p s i d stx) ("i") [c3inner y0 ytail]
            1 vs st2)
        | Value.vdict ps => finishUnit (runForIter
            (fun t e p s i d stx => evalT 4 t e p s i d stx) ("i") [c3inner y0 ytail]
            1 (ps.map fun p => p.1.toValue) st2)
        | _ => (st2, Except.error (Err.typeErr ("object is not iterable")))) = _
    rw [evalT_litList 2 xs 0 c3stA rfl]
    show finishUnit (runForIter (fun t e p s i d stx => evalT 4 t e p s i d stx) ("i")
        [c3inner y0 ytail] 1 (xs.map Value.vint) c3stA) = _
    rw [c3_outer_iter y0 ytail (xs.map Value.vint) c3stA rfl]
    rfl
  refine ⟨?_, ?_, ?_, ?_⟩
  · rw [hres]
  · rw [hres]
    show (c3Run y0 (xs.map Value.vint) c3stA).nextEnv = 2 + xs.length
    rw [c3Run_nextEnv y0 (xs.map Value.vint) c3stA]
    show (2 : Nat) + (xs.map Value.vint).length = 2 + xs.length
    simp
  · rw [hres]
    show alookup ((c3Run y0 (xs.map Value.vint) c3stA).getEnv 1).vars ("i") = _
    rw [c3Run_i y0 (xs.map Value.vint) c3stA (Nat.le_refl 2)]
    rw [c3_getLast_map xs]
    cases hx : xs.getLast? with
    | none => rfl
    | some x => rfl
  · intro k hk
    rw [hres]
    exact c3Run_inner y0 (xs.map Value.vint) c3stA (Nat.le_refl 2) k (by simpa using hk)

/-- C3 amended witness: xs = [1, 2], ys = [5, 6] — two outer iterations
(environments 2 and 3 exist, each with j = 5 only), i ends at 2. -/
theorem c3_nested_break_amended_witness :
    (c3r [1, 2] 5 [6]).2 = Except.ok Value.none ∧
    (c3r [1, 2] 5 [6]).1.nextEnv = 4 ∧
    alookup (((c3r [1, 2] 5 [6]).1.getEnv 1)).vars ("i") =
      some (Cell.raw (Value.vint 2)) ∧
    (((c3r [1, 2] 5 [6]).1.getEnv 2)).vars = [(("j"), Cell.raw (Value.vint 5))] ∧
    (((c3r [1, 2] 5 [6]).1.getEnv 3)).vars = [(("j"), Cell.raw (Value.vint 5))] := by
  obtain ⟨h1, h2, h3, h4⟩ := c3_nested_break_amended [1, 2] 5 [6]
  exact ⟨h1, h2, h3, h4 0 (by decide), h4 1 (by decide)⟩

end FreenasCli

namespace FreenasCli

/-- Names of the round-trip fragment family. -/
inductive RTName where
  | nx
  | ny
  | nz

/-- The rendered name. -/
def RTName.str : RTName → String
  | .nx => "x"
  | .ny => "y"
  | .nz => "z"

/-- Literal leaves of the round-trip fragment family. -/
inductive RTLeaf where
  | n0
  | n7
  | btrue
  | lnone
  | lstr

/-- The leaf as an AST literal. -/
def RTLeaf.ast : RTLeaf → Ast
  | .n0 => Ast.litInt 0
  | .n7 => Ast.litInt 7
  | .btrue => Ast.litBool true
  | .lnone => Ast.litNone
  | .lstr => Ast.litStr ("hi")

/-- Binary operators of the round-trip fragment family. -/
inductive RTOp where
  | oplus
  | omul
  | ogt

/-- The operator text. -/
def RTOp.str : RTOp → String
  | .oplus => "+"
  | .omul => "*"
  | .ogt => ">"

/-- A finite family of comment-free statements built solely from node kinds
`unparse` renders: assignments of literals, of a single binary operation on
literals, and of two-element list literals, plus one-word commands. -/
inductive RTFrag where
  | assignLit (n : RTName) (l : RTLeaf)
  | assignBin (n : RTName) (l : RTLeaf) (o : RTOp) (r : RTLeaf)
  | assignList (n : RTName) (l : RTLeaf) (r : RTLeaf)
  | cmdWord (n : RTName)

/-- The fragment as an AST statement. -/
def RTFrag.ast : RTFrag → Ast
  | .assignLit n l => Ast.assignName n.str l.ast
  | .assignBin n l o r => Ast.assignName n.str (Ast.binaryExpr l.ast o.str r.ast)
  | .assignList n l r => Ast.assignName n.str (Ast.litList [l.ast, r.ast])
  | .cmdWord n => Ast.commandCall [Ast.symbol n.str]

/-- C6, amended part: on the fragment family of statements built from node
kinds `unparse` renders, parse after single-line unparse recovers exactly
the original AST — the round trip is the identity there, in contrast to
the unrendered node kinds of the counterexample. -/
theorem c6_roundtrip_amended (s : RTFrag) :
    parse (unparse s.ast 0 true) = Except.ok [s.ast] := by
  cases s with
  | assignLit n l => cases n <;> cases l <;> rfl
  | assignBin n l o r => cases n <;> cases l <;> cases o <;> cases r <;> rfl
  | assignList n l r => cases n <;> cases l <;> cases r <;> rfl
  | cmdWord n => cases n <;> rfl

end FreenasCli
